import Mathlib

/-!
Verification development for the ochre-js normalization and rich-text
rendering engine.  The definitions below are a shallow embedding of the
TypeScript sources (`src/utils/string.ts`, `src/utils/getters.ts` and the
parser module containing `parseResource`, `parseLink`, `parseDocument`,
`parseWebsite` and friends).  JavaScript strings are modelled by `String`,
JavaScript numbers by `Int` (all numeric payloads relevant here are
integral), `T | Array<T>` unions by `OneOrMany`, `undefined`/`null` by
`Option`, thrown exceptions by `Except String`, and `Date` construction by
an inert `JsDate` wrapper that remembers its argument.  Fields that the
code removes with the `delete` operator are modelled with `JsField`, which
distinguishes an absent key, a key holding `null`, and a key holding a
value.  Recursive `T | Array<T>` child collections (`property`, `resource`)
are modelled as plain lists: every consumer in the source array-wraps them
(`Array.isArray(x) ? x : [x]`) before use, so the embedding receives the
wrapped form directly.
-/

namespace Ochre

/-- Runtime presence of a JavaScript object field: the key can be missing
entirely (after `delete`), present with value `null`, or present with a
proper value. -/
inductive JsField (α : Type) where
  | absent
  | nullv
  | val (a : α)
  deriving Repr, DecidableEq

/-- A `JsField` carries data only in the `val` case; both `absent` and
`nullv` expose no value to a consumer. -/
def JsField.carries {α : Type} : JsField α → Bool
  | .val _ => true
  | _ => false

/-- A JavaScript `T | Array<T>` union field. -/
inductive OneOrMany (α : Type) where
  | one (a : α)
  | many (l : List α)
  deriving Repr, DecidableEq

/-- The array-wrapping idiom `Array.isArray(x) ? x : [x]`. -/
def OneOrMany.toList {α : Type} : OneOrMany α → List α
  | .one a => [a]
  | .many l => l

/-- The JavaScript `Array.isArray(x) ? x[0] : x` idiom; `none` models the
`undefined` produced by indexing an empty array. -/
def OneOrMany.firstItem {α : Type} : OneOrMany α → Option α
  | .one a => some a
  | .many l => l.head?

/-- A `new Date(...)` value; the embedding keeps the constructor argument
and never interprets it. -/
inductive JsDate where
  | ofString (s : String)
  | ofYMD (y m d : Int)
  deriving Repr, DecidableEq

/-- The raw `FakeString` union: `string | number | boolean`. -/
inductive FakeString where
  | str (s : String)
  | num (n : Int)
  | bool (b : Bool)
  deriving Repr, DecidableEq

/-- JavaScript truthiness of a `FakeString` value. -/
def FakeString.truthy : FakeString → Bool
  | .str s => s ≠ ""
  | .num n => n ≠ 0
  | .bool b => b

/-- Truthiness of an optional string field (`undefined` and `""` are
falsy). -/
def strTruthy : Option String → Bool
  | some s => s ≠ ""
  | none => false

/-- Truthiness of an optional `FakeString` field. -/
def fakeTruthy : Option FakeString → Bool
  | some f => f.truthy
  | none => false

/-- Truthiness of an optional number field (`undefined` and `0` are
falsy). -/
def numTruthy : Option Int → Bool
  | some n => n ≠ 0
  | none => false

/-- The apostrophe character, kept out of string literals. -/
def apos : String := String.singleton (Char.ofNat 39)

/-- One left-to-right, non-overlapping `replaceAll` pass over a character
list, structurally recursive on a step budget so that the kernel can
evaluate it; every step consumes at least one input character, so the
budget `l.length` used by `replList` below is never exhausted. -/
def replListGo (pat rep : List Char) : Nat → List Char → List Char
  | _, [] => []
  | 0, l => l
  | fuel + 1, c :: rest =>
    if pat.isPrefixOf (c :: rest) then
      rep ++ replListGo pat rep fuel ((c :: rest).drop pat.length)
    else
      c :: replListGo pat rep fuel rest

/-- The `replaceAll` pass over a character list; an empty pattern leaves
the input unchanged (never used here). -/
def replList (pat rep l : List Char) : List Char :=
  match pat with
  | [] => l
  | _ :: _ => replListGo pat rep l.length l

/-- JavaScript `String.prototype.replaceAll` with a literal pattern. -/
def jsReplaceAll (s pat rep : String) : String :=
  ⟨replList pat.data rep.data s.data⟩

/-- The `.replaceAll("&#39;", "'")` pass applied throughout
`string.ts`. -/
def stripApos (s : String) : String :=
  jsReplaceAll s "&#39;" apos

/-- The two annotation-text escapes from `parseStringDocumentItem`:
`.replaceAll("<", "\\<").replaceAll("{", "\\{")`. -/
def escapeAnnot (s : String) : String :=
  jsReplaceAll (jsReplaceAll s "<" "\\<") "\x7b" "\\\x7b"

/-- Substring test with JavaScript `String.prototype.includes`
semantics. -/
def includesB (s sub : String) : Bool :=
  s.data.tails.any fun t => sub.data.isPrefixOf t

/-- Helper for `jsSplit`. -/
def jsSplitGo (sep : Char) : List Char → List Char → List String
  | [], acc => [⟨acc.reverse⟩]
  | c :: rest, acc =>
    if c = sep then ⟨acc.reverse⟩ :: jsSplitGo sep rest []
    else jsSplitGo sep rest (c :: acc)

/-- JavaScript `String.prototype.split` with a single-character separator
(every split in the source uses one). -/
def jsSplit (s : String) (sep : Char) : List String :=
  jsSplitGo sep s.data []

/-- JavaScript `toLocaleLowerCase("en-US")`, adequate for the ASCII data
handled here. -/
def jsToLower (s : String) : String := ⟨s.data.map Char.toLower⟩

/-- Converts various primitive types to strings (`parseFakeString` in
`string.ts`): numbers via `toString`, `true`/`false` to `"Yes"`/`"No"`,
then restores literal apostrophes. -/
def parseFakeString (f : FakeString) : String :=
  stripApos (match f with
    | .str s => s
    | .num n => toString n
    | .bool b => if b then "Yes" else "No")

/-- Render options accepted by `renderOptionsSchema`. -/
inductive RenderOption where
  | bold
  | italic
  | underline
  deriving Repr, DecidableEq

/-- Whitespace options accepted by `whitespaceSchema`. -/
inductive WhitespaceOption where
  | newline
  | trailing
  | leading
  deriving Repr, DecidableEq

/-- One token of the space-separated render-option string. -/
def renderToken : String → Option RenderOption
  | "bold" => some .bold
  | "italic" => some .italic
  | "underline" => some .underline
  | _ => none

/-- One token of the space-separated whitespace-option string. -/
def whitespaceToken : String → Option WhitespaceOption
  | "newline" => some .newline
  | "trailing" => some .trailing
  | "leading" => some .leading
  | _ => none

/-- The `renderOptionsSchema` zod pipeline: split on a single space and
require every token to be a valid render option. -/
def renderTokens (s : String) : Option (List RenderOption) :=
  (jsSplit s (Char.ofNat 32)).mapM renderToken

/-- The `whitespaceSchema` zod pipeline. -/
def whitespaceTokens (s : String) : Option (List WhitespaceOption) :=
  (jsSplit s (Char.ofNat 32)).mapM whitespaceToken

/-- Wrapping applied by one render option in `parseRenderOptions`. -/
def applyRenderOption (s : String) : RenderOption → String
  | .bold => "**" ++ s ++ "**"
  | .italic => "*" ++ s ++ "*"
  | .underline => "_" ++ s ++ "_"

/-- Applies render options (bold, italic, underline) to a string
(`parseRenderOptions`).  An invalid option string returns the input
unchanged; a valid one folds the tokens in their literal order and then
restores apostrophes. -/
def parseRenderOptions (contentString renderString : String) : String :=
  match renderTokens renderString with
  | none => contentString
  | some opts => stripApos (opts.foldl applyRenderOption contentString)

/-- Transformation applied by one whitespace option in `parseWhitespace`:
`newline` appends a line feed plus the literal `<br />` marker, `trailing`
appends a space, `leading` prepends a space. -/
def applyWhitespaceOption (s : String) : WhitespaceOption → String
  | .newline => s ++ "\n<br />"
  | .trailing => s ++ " "
  | .leading => " " ++ s

/-- Applies whitespace options to a string (`parseWhitespace`). -/
def parseWhitespace (contentString whitespace : String) : String :=
  match whitespaceTokens whitespace with
  | none => contentString
  | some opts => stripApos (opts.foldl applyWhitespaceOption contentString)

/-- A formatted span (`OchreStringItemContent`): content plus optional
space-separated render and whitespace option strings. -/
structure OchreStringItemContent where
  rend : Option String := none
  whitespace : Option String := none
  content : FakeString
  deriving Repr, DecidableEq

/-- Payload of `OchreStringItem.string`: a primitive or one-or-many
formatted spans. -/
inductive StringItemPayload where
  | fake (f : FakeString)
  | spans (s : OneOrMany OchreStringItemContent)
  deriving Repr, DecidableEq

/-- A language-tagged string item (`OchreStringItem`). -/
structure OchreStringItem where
  string : StringItemPayload
  lang : Option String := none
  languages : Option String := none
  deriving Repr, DecidableEq

/-- Payload of `OchreStringContent.content`. -/
inductive StringContentPayload where
  | fake (f : FakeString)
  | item (i : OchreStringItem)
  | items (l : List OchreStringItem)
  deriving Repr, DecidableEq

/-- A localized string container (`OchreStringContent`). -/
structure OchreStringContent where
  content : StringContentPayload
  deriving Repr, DecidableEq

/-- Renders one span of `parseStringItem`: render options first (when the
`rend` string is truthy), then whitespace options (when truthy). -/
def renderSpan (sp : OchreStringItemContent) : String :=
  let renderedText :=
    if strTruthy sp.rend then
      parseRenderOptions (parseFakeString sp.content) (sp.rend.getD "")
    else
      parseFakeString sp.content
  if strTruthy sp.whitespace then
    parseWhitespace renderedText (sp.whitespace.getD "")
  else
    renderedText

/-- Parses an OCHRE string item into a formatted string
(`parseStringItem`): primitives directly, span lists by concatenating each
rendered span, with a final apostrophe-restoring pass. -/
def parseStringItem (item : OchreStringItem) : String :=
  stripApos (match item.string with
    | .fake (.str s) => s
    | .fake f => parseFakeString f
    | .spans ss => (ss.toList.map renderSpan).foldl (· ++ ·) "")

/-- Language lookup of `getStringItemByLanguage`: the first item whose
`lang` tag strictly equals the requested code. -/
def getStringItemByLanguage (content : List OchreStringItem)
    (language : String) : Option OchreStringItem :=
  content.find? fun item => item.lang == some language

/-- Parses OCHRE string content (`parseStringContent`): primitives
directly; an array selects the requested language and otherwise falls back
to the first item; only an empty array throws. -/
def parseStringContent (content : OchreStringContent)
    (language : String := "eng") : Except String String :=
  match content.content with
  | .fake f => .ok (parseFakeString f)
  | .item i => .ok (parseStringItem i)
  | .items l =>
    match getStringItemByLanguage l language with
    | some i => .ok (parseStringItem i)
    | none =>
      match l with
      | [] => .error ("No string item found for language " ++ language)
      | i :: _ => .ok (parseStringItem i)

/-! Email and URL detection used by `parseEmailAndUrl`.  The source tests
each cleaned word against the zod 3.24 e-mail regular expression
`/^(?!\.)(?!.*\.\.)([A-Z0-9_'+\-\.]*)[A-Z0-9_+-]@([A-Z0-9][A-Z0-9\-]*\.)+[A-Z]{2,}$/i`
and against the URL pattern of `isUrlValid`
`/((([A-Za-z]{3,9}:(?:\/\/)?)(?:[\w$&+,:;=-]+@)?[\d.A-Za-z-]+(:\d+)?|(?:www.|[\w$&+,:;=-]+@)[\d.A-Za-z-]+)((?:\/[%+./~\w-_]*)?\??[\w%&+.;=@-]*#?\w*)?)/`.
The two matchers below are direct transcriptions: the e-mail pattern is
anchored, the URL pattern succeeds if any suffix position starts a match of
one of its two mandatory alternatives (the final group is entirely
optional, so it never decides acceptance). -/

/-- Character class `\w`. -/
def isWordChar (c : Char) : Bool :=
  c.isAlpha || c.isDigit || c = '_'

/-- Character class `[\w$&+,:;=-]` (the user-info part of the URL
pattern). -/
def isUserChar (c : Char) : Bool :=
  isWordChar c || c = '$' || c = '&' || c = '+' || c = ',' || c = ':' ||
    c = ';' || c = '=' || c = '-'

/-- Character class `[\d.A-Za-z-]` (the host part of the URL pattern). -/
def isHostChar (c : Char) : Bool :=
  c.isDigit || c = '.' || c.isAlpha || c = '-'

/-- At least one host character follows. -/
def hostTail : List Char → Bool
  | c :: _ => isHostChar c
  | [] => false

/-- Scans `[\w$&+,:;=-]+@` followed by at least one host character;
`consumed` records whether at least one user-info character has been
read. -/
def userScan : List Char → Bool → Bool
  | [], _ => false
  | c :: rest, consumed =>
    (c = '@' && consumed && hostTail rest) ||
      (isUserChar c && userScan rest true)

/-- Consumes exactly `n` letters, returning the remainder. -/
def takeLetters : Nat → List Char → Option (List Char)
  | 0, rest => some rest
  | _ + 1, [] => none
  | n + 1, c :: rest => if c.isAlpha then takeLetters n rest else none

/-- First URL alternative: `[A-Za-z]{3,9}:(?:\/\/)?(?:[\w$&+,:;=-]+@)?[\d.A-Za-z-]+`
matched at the head of the list. -/
def urlAlt1At (l : List Char) : Bool :=
  (List.range 7).any fun i =>
    match takeLetters (3 + i) l with
    | some (':' :: rest) =>
      let tails := match rest with
        | '/' :: '/' :: r2 => [r2, rest]
        | _ => [rest]
      tails.any fun r => hostTail r || userScan r false
    | _ => false

/-- Second URL alternative: `(?:www.|[\w$&+,:;=-]+@)[\d.A-Za-z-]+` matched
at the head of the list (the dot after `www` is an unescaped wildcard in
the source pattern). -/
def urlAlt2At (l : List Char) : Bool :=
  (match l with
    | 'w' :: 'w' :: 'w' :: _ :: rest => hostTail rest
    | _ => false) ||
    userScan l false

/-- Validates if a string is a valid URL (`isUrlValid` in `string.ts`):
the unanchored pattern matches if some position starts one of the two
mandatory alternatives. -/
def isUrlValid (s : String) : Bool :=
  s.data.tails.any fun t => urlAlt1At t || urlAlt2At t

/-- The `urlSchema` zod refinement: an empty string is rejected before the
pattern test. -/
def urlSchemaAccepts (s : String) : Bool :=
  s ≠ "" && isUrlValid s

/-- Local-part character class `[A-Z0-9_'+\-\.]` (case-insensitive). -/
def isLocalChar (c : Char) : Bool :=
  c.isAlpha || c.isDigit || c = '_' || c = Char.ofNat 39 || c = '+' ||
    c = '-' || c = '.'

/-- Final local-part character class `[A-Z0-9_+-]`. -/
def isLocalFinal (c : Char) : Bool :=
  c.isAlpha || c.isDigit || c = '_' || c = '+' || c = '-'

/-- Domain-label check `[A-Z0-9][A-Z0-9\-]*`. -/
def emailLabelOk : List Char → Bool
  | [] => false
  | c :: rest => (c.isAlpha || c.isDigit) &&
      rest.all fun d => d.isAlpha || d.isDigit || d = '-'

/-- The zod 3.24 e-mail pattern, transcribed: no leading dot, no two
consecutive dots, local part over its classes, one `@`, dot-separated
alphanumeric labels and an alphabetic top-level domain of length at least
two. -/
def isEmailValid (s : String) : Bool :=
  match jsSplit s (Char.ofNat 64) with
  | [localPart, domain] =>
    (match s.data.head? with
      | some c => c ≠ '.'
      | none => true) &&
    !includesB s ".." &&
    (match localPart.data.reverse with
      | [] => false
      | lastc :: revInit => isLocalFinal lastc && revInit.all isLocalChar) &&
    (match (jsSplit domain (Char.ofNat 46)).reverse with
      | tld :: labels =>
        !labels.isEmpty &&
          (labels.all fun lb => emailLabelOk lb.data) &&
          tld.length ≥ 2 && tld.data.all Char.isAlpha
      | [] => false)
  | _ => false

/-! Word cleaning in `parseEmailAndUrl`: the source applies
`.replaceAll(/(?<=\s|^)[([{]+|[)\]}]+(?=\s|$)/g, "")` — removing every
maximal run of opening brackets that begins at the start or after a
whitespace character, and every maximal run of closing brackets that ends
at the end or before a whitespace character — followed by
`.replace(/[!),.:;?\]]$/, "")`, removing one trailing punctuation
character. -/

/-- Character class `[([{`. -/
def isOpener (c : Char) : Bool := c = '(' || c = '[' || c = '\x7b'

/-- Character class `[)\]}]`. -/
def isCloser (c : Char) : Bool := c = ')' || c = ']' || c = '\x7d'

/-- JavaScript `\s` on the data seen here. -/
def isJsWs (c : Char) : Bool := c = ' ' || c = '\t' || c = '\n' || c = '\r'

/-- Whether a removed closing-bracket run is followed by whitespace or the
end of the string. -/
def nextIsWsOrEnd : List Char → Bool
  | [] => true
  | c :: _ => isJsWs c

/-- One pass of the bracket-stripping regular expression, structurally
recursive on a step budget; every step consumes at least one input
character, so the budget `l.length` used by `cleanPass` below is never
exhausted.  `prevWs` records whether the previous original character was
whitespace (or the start). -/
def cleanPassGo : Nat → Bool → List Char → List Char
  | _, _, [] => []
  | 0, _, l => l
  | fuel + 1, prevWs, c :: rest =>
    if prevWs && isOpener c then
      cleanPassGo fuel false (rest.dropWhile isOpener)
    else if isCloser c then
      let rest' := rest.dropWhile isCloser
      if nextIsWsOrEnd rest' then
        cleanPassGo fuel false rest'
      else
        (c :: rest.takeWhile isCloser) ++ cleanPassGo fuel false rest'
    else
      c :: cleanPassGo fuel (isJsWs c) rest

/-- One pass of the bracket-stripping regular expression. -/
def cleanPass (prevWs : Bool) (l : List Char) : List Char :=
  cleanPassGo l.length prevWs l

/-- Character class `[!),.:;?\]]` of the final single-character trim. -/
def isTrailPunct (c : Char) : Bool :=
  c = '!' || c = ')' || c = ',' || c = '.' || c = ':' || c = ';' ||
    c = '?' || c = ']'

/-- The complete word-cleaning pipeline of `parseEmailAndUrl`. -/
def cleanStringOf (piece : String) : String :=
  let stripped := cleanPass true piece.data
  ⟨match stripped.getLast? with
    | some c => if isTrailPunct c then stripped.dropLast else stripped
    | none => stripped⟩

/-- JavaScript `String.prototype.indexOf` (first index of a literal
substring, `-1` if absent; the empty string is found at `0`). -/
def jsIndexOf (s sub : String) : Int :=
  let rec go : List Char → Nat → Option Nat
    | l, i =>
      if sub.data.isPrefixOf l then some i
      else match l with
        | [] => none
        | _ :: rest => go rest (i + 1)
  match go s.data 0 with
  | some i => (i : Int)
  | none => -1

/-- JavaScript `String.prototype.slice` with two arguments. -/
def jsSlice (s : String) (start stop : Int) : String :=
  let len : Int := s.data.length
  let norm : Int → Nat := fun i =>
    (if i < 0 then max 0 (len + i) else min i len).toNat
  let a := norm start
  let b := norm stop
  ⟨(s.data.drop a).take (b - a)⟩

/-- JavaScript `String.prototype.slice` with one argument. -/
def jsSliceFrom (s : String) (start : Int) : String :=
  jsSlice s start (s.data.length : Int)

/-- Parses a string and wraps any emails or URLs in ExternalLink
components (`parseEmailAndUrl`): split on single spaces, clean each word,
test the cleaned word as e-mail then URL, re-wrap, and re-join; the e-mail
branch pushes the `before` fragment twice, exactly as the source does. -/
def parseEmailAndUrl (s : String) : String :=
  let pieces := jsSplit s (Char.ofNat 32)
  let out := pieces.foldl (fun acc piece =>
    let clean := cleanStringOf piece
    let idx := jsIndexOf piece clean
    let before := jsSlice piece 0 idx
    let after := jsSliceFrom piece (idx + (clean.data.length : Int))
    if isEmailValid clean then
      acc ++ [before,
        before ++ "<ExternalLink href=\"mailto:" ++ clean ++ "\">" ++
          clean ++ "</ExternalLink>" ++ after]
    else if urlSchemaAccepts clean then
      acc ++ [before ++ "<ExternalLink href=\"" ++ clean ++ "\">" ++
        clean ++ "</ExternalLink>" ++ after]
    else
      acc ++ [piece]) []
  String.intercalate " " out

/-! Raw OCHRE entity types (`internal.raw.d.ts`), restricted to the fields
the parser module reads. -/

/-- Raw OCHRE identification (`OchreIdentification`), modelled with its
label and abbreviation fields. -/
structure OchreIdentification where
  label : OchreStringContent
  abbreviation : Option OchreStringContent := none
  deriving Repr, DecidableEq

/-- Raw OCHRE license payload: a plain string or a content/target pair. -/
inductive OchreLicensePayload where
  | str (s : String)
  | obj (content : String) (target : String)
  deriving Repr, DecidableEq

/-- Raw OCHRE license (`OchreLicense`). -/
structure OchreLicense where
  license : OchreLicensePayload
  deriving Repr, DecidableEq

/-- Raw OCHRE context item (`OchreContextItem`). -/
structure OchreContextItem where
  uuid : String
  publicationDateTime : Option String := none
  n : Int
  content : FakeString
  deriving Repr, DecidableEq

/-- Raw OCHRE context value (`OchreContextValue`). -/
structure OchreContextValue where
  tree : OchreContextItem
  project : OchreContextItem
  spatialUnit : Option (OneOrMany OchreContextItem) := none
  displayPath : String
  deriving Repr, DecidableEq

/-- Raw OCHRE context (`OchreContext`). -/
structure OchreContext where
  context : OneOrMany OchreContextValue
  displayPath : String
  deriving Repr, DecidableEq

/-- Raw OCHRE person (`OchrePerson`). -/
structure OchrePerson where
  uuid : String
  publicationDateTime : Option String := none
  type : Option String := none
  date : Option String := none
  identification : Option OchreIdentification := none
  content : Option FakeString := none
  deriving Repr, DecidableEq

/-- Raw OCHRE property value (`OchrePropertyValue`): string content plus
value metadata. -/
structure OchrePropertyValue where
  content : StringContentPayload
  uuid : Option String := none
  publicationDateTime : Option String := none
  type : String
  category : Option String := none
  deriving Repr, DecidableEq

/-- Raw OCHRE property (`OchreProperty`); the recursive `property` child
collection is kept array-wrapped. -/
inductive OchreProperty where
  | mk (label : OchreStringContent) (value : Option (OneOrMany OchrePropertyValue))
      (comment : Option FakeString) (property : Option (List OchreProperty))
  deriving Repr

/-- Label of a raw property. -/
def OchreProperty.label : OchreProperty → OchreStringContent
  | .mk l _ _ _ => l

/-- Values of a raw property. -/
def OchreProperty.value : OchreProperty → Option (OneOrMany OchrePropertyValue)
  | .mk _ v _ _ => v

/-- Comment of a raw property. -/
def OchreProperty.comment : OchreProperty → Option FakeString
  | .mk _ _ c _ => c

/-- Child properties of a raw property. -/
def OchreProperty.property : OchreProperty → Option (List OchreProperty)
  | .mk _ _ _ p => p

/-- Raw citation span of a bibliography (`citationFormatSpan`), whose two
variants use the `span` or `default:span` key. -/
inductive OchreCitationSpan where
  | span (content : FakeString)
  | defaultSpan (content : FakeString)
  deriving Repr, DecidableEq

/-- Raw reference div of a bibliography (`referenceFormatDiv`), keyed by
`div` or `default:div`. -/
inductive OchreReferenceDiv where
  | div (innerClass : String) (content : FakeString) (style : String) (outerClass : String)
  | defaultDiv (innerClass : String) (content : FakeString) (style : String) (outerClass : String)
  deriving Repr, DecidableEq

/-- Raw source resource of a bibliography (the `Pick<OchreResource, ...>`
in `source.resource`). -/
structure OchreBibSourceResource where
  uuid : String
  type : String
  publicationDateTime : Option String := none
  identification : OchreIdentification
  deriving Repr, DecidableEq

/-- Raw OCHRE bibliography (`OchreBibliography`), restricted to the fields
`parseBibliography` and the rich-text renderer read. -/
structure OchreBibliography where
  uuid : String
  publicationDateTime : Option String := none
  type : String
  n : Int
  identification : OchreIdentification
  projectIdentification : Option OchreIdentification := none
  context : Option OchreContext := none
  sourceDocumentUuid : Option String := none
  publishersPersons : Option (OneOrMany OchrePerson) := none
  startDate : Option (Int × Int × Int) := none
  entryInfo : Option (FakeString × FakeString) := none
  citationFormatSpan : Option OchreCitationSpan := none
  referenceFormatDiv : Option OchreReferenceDiv := none
  sourceResource : Option OchreBibSourceResource := none
  authorsPersons : Option (OneOrMany OchrePerson) := none
  properties : Option (List OchreProperty) := none
  deriving Repr

/-- Raw OCHRE link item (`OchreLinkItem`). -/
structure OchreLinkItem where
  uuid : String
  publicationDateTime : Option String := none
  type : Option String := none
  identification : Option OchreIdentification := none
  rend : Option String := none
  content : Option FakeString := none
  heightPreview : Option Int := none
  widthPreview : Option Int := none
  height : Option Int := none
  width : Option Int := none
  deriving Repr, DecidableEq

/-- Raw OCHRE link variants (`OchreLink`), keyed by the single present
property. -/
inductive OchreLink where
  | resource (items : OneOrMany OchreLinkItem)
  | concept (items : OneOrMany OchreLinkItem)
  | set (items : OneOrMany OchreLinkItem)
  | person (items : OneOrMany OchreLinkItem)
  | epigraphicUnit (items : OneOrMany OchreLinkItem)
  | bibliography (items : OneOrMany OchreBibliography)
  deriving Repr

/-- A footnote collected while rendering a document. -/
structure Footnote where
  uuid : String
  label : String
  content : String
  deriving Repr, DecidableEq

/-- Rich text node content variant
(`OchreStringRichTextItemContent`). -/
structure RichContent where
  content : FakeString
  title : Option FakeString := none
  lang : Option String := none
  whitespace : Option String := none
  rend : Option String := none
  deriving Repr, DecidableEq

/-- Rich text item variants (`OchreStringRichTextItem`): a bare primitive,
a formatted content node, a composite node holding nested items, a
whitespace-only node, and an annotated node carrying outbound links.  The
constructors correspond one-to-one to the key-presence shapes the renderer
dispatches on. -/
inductive OchreStringRichTextItem where
  | fake (f : FakeString)
  | content (c : RichContent)
  | composite (string : List OchreStringRichTextItem) (whitespace : Option String)
  | wsOnly (whitespace : String)
  | annot (annotUuid : String) (string : FakeString) (links : List OchreLink)
  deriving Repr

/-- Language-tagged rich text (`OchreStringRichText`). -/
structure OchreStringRichText where
  string : OneOrMany OchreStringRichTextItem
  title : Option FakeString := none
  lang : Option String := none
  deriving Repr

/-- Conditional template fragment `${x ? f(x) : ""}` for an optional
string. -/
def condStr (o : Option String) (mk : String → String) : String :=
  match o with
  | some s => if s ≠ "" then mk s else ""
  | none => ""

/-- The base of every generated OCHRE hyperlink. -/
def ochreHref : String := "https:\\/\\/ochre.lib.uchicago.edu/ochre?uuid="

/-- The link-dispatch loop of `parseStringDocumentItem`: walks the
annotated node's outbound links and returns the rendered markup of the
first link the dispatcher handles, `none` if the loop runs out of links,
or an error for malformed input (an empty link-item array, or a
`parseStringContent` failure in the person branch).  A resource link whose
first target's type is not `image`, `internalDocument` or
`externalDocument`, and every `epigraphicUnit` link, is skipped and the
loop continues. -/
def renderLinks (itemString : String) (links : List OchreLink)
    (footnotes : List Footnote) :
    Except String (Option String × List Footnote) :=
  match links with
  | [] => .ok (none, footnotes)
  | link :: rest =>
    match link with
    | .resource items =>
      match items.firstItem with
      | none => .error "TypeError: cannot read properties of undefined"
      | some lr =>
        let linkContent : Option String :=
          if fakeTruthy lr.content then
            some (escapeAnnot (parseFakeString (lr.content.getD (.str ""))))
          else none
        match lr.type with
        | some "image" =>
          if lr.rend == some "inline" then
            .ok (some ("<InlineImage uuid=\"" ++ lr.uuid ++ "\" " ++
              condStr linkContent (fun lc => "content=\"" ++ lc ++ "\"") ++
              " height=\x7b" ++
              (match lr.height with | some h => toString h | none => "null") ++
              "\x7d width=\x7b" ++
              (match lr.width with | some w => toString w | none => "null") ++
              "\x7d />"), footnotes)
          else if strTruthy lr.publicationDateTime then
            .ok (some ("<ExternalLink href=\"" ++ ochreHref ++ lr.uuid ++
              "\" type=\"image\"" ++
              condStr linkContent (fun lc => " content=\"" ++ lc ++ "\"") ++
              ">" ++ itemString ++ "</ExternalLink>"), footnotes)
          else
            .ok (some ("<TooltipSpan type=\"image\" " ++
              condStr linkContent (fun lc => "content=\"" ++ lc ++ "\"") ++
              ">" ++ itemString ++ "</TooltipSpan>"), footnotes)
        | some "internalDocument" =>
          let isFootnote :=
            match linkContent with
            | some lc => includesB (jsToLower lc) "footnote"
            | none => false
          if isFootnote then
            .ok (some (" <Footnote uuid=\"" ++ lr.uuid ++ "\"" ++
              (if itemString ≠ "" then
                " label=\"" ++ itemString ++ "\"" else "") ++
              condStr linkContent (fun lc => " content=\"" ++ lc ++ "\"") ++
              " />"),
              footnotes ++ [{ uuid := lr.uuid, label := itemString, content := "" }])
          else
            .ok (some ("<ExternalLink href=\"" ++ ochreHref ++ lr.uuid ++
              "\" type=\"internalDocument\" " ++
              condStr linkContent (fun lc => "content=\"" ++ lc ++ "\"") ++
              ">" ++ itemString ++ "</ExternalLink>"), footnotes)
        | some "externalDocument" =>
          if strTruthy lr.publicationDateTime then
            .ok (some ("<ExternalLink href=\"" ++ ochreHref ++ lr.uuid ++
              "\" type=\"externalDocument\" " ++
              condStr linkContent (fun lc => "content=\"" ++ lc ++ "\"") ++
              ">" ++ itemString ++ "</ExternalLink>"), footnotes)
          else
            .ok (some ("<TooltipSpan type=\"externalDocument\" " ++
              condStr linkContent (fun lc => "content=\"" ++ lc ++ "\"") ++
              ">" ++ itemString ++ "</TooltipSpan>"), footnotes)
        | _ => renderLinks itemString rest footnotes
    | .concept items =>
      match items.firstItem with
      | none => .error "TypeError: cannot read properties of undefined"
      | some lc =>
        if strTruthy lc.publicationDateTime then
          .ok (some ("<ExternalLink href=\"" ++ ochreHref ++ lc.uuid ++
            "\" type=\"concept\">" ++ itemString ++ "</ExternalLink>"),
            footnotes)
        else
          .ok (some ("<TooltipSpan type=\"concept\">" ++ itemString ++
            "</TooltipSpan>"), footnotes)
    | .set items =>
      match items.firstItem with
      | none => .error "TypeError: cannot read properties of undefined"
      | some ls =>
        if strTruthy ls.publicationDateTime then
          .ok (some ("<ExternalLink href=\"" ++ ochreHref ++ ls.uuid ++
            "\" type=\"set\">" ++ itemString ++ "</ExternalLink>"),
            footnotes)
        else
          .ok (some ("<TooltipSpan type=\"set\">" ++ itemString ++
            "</TooltipSpan>"), footnotes)
    | .person items =>
      match items.firstItem with
      | none => .error "TypeError: cannot read properties of undefined"
      | some lp => do
        let linkContent : Option String ←
          match lp.identification with
          | some ident => (parseStringContent ident.label).map some
          | none => pure none
        let tp := lp.type.getD "person"
        if strTruthy lp.publicationDateTime then
          pure (some ("<ExternalLink href=\"" ++ ochreHref ++ lp.uuid ++
            "\" type=\"" ++ tp ++ "\" " ++
            condStr linkContent (fun lc => "content=\"" ++ lc ++ "\"") ++
            ">" ++ itemString ++ "</ExternalLink>"), footnotes)
        else
          pure (some ("<TooltipSpan type=\"" ++ tp ++ "\" " ++
            condStr linkContent (fun lc => "content=\"" ++ lc ++ "\"") ++
            ">" ++ itemString ++ "</TooltipSpan>"), footnotes)
    | .bibliography items =>
      match items.firstItem with
      | none => .error "TypeError: cannot read properties of undefined"
      | some lb =>
        if strTruthy lb.publicationDateTime then
          .ok (some ("<ExternalLink href=\"" ++ ochreHref ++ lb.uuid ++
            "\" type=\"" ++ (if lb.type ≠ "" then lb.type else "bibliography") ++
            "\">" ++ itemString ++ "</ExternalLink>"), footnotes)
        else
          .ok (some ("<TooltipSpan type=\"bibliography\">" ++ itemString ++
            "</TooltipSpan>"), footnotes)
    | .epigraphicUnit _ => renderLinks itemString rest footnotes

mutual

/-- Parses an OCHRE rich text item into a formatted string with components
(`parseStringDocumentItem`), threading the footnote collection
explicitly.  Branch order follows the source: bare primitive,
whitespace-only node, annotated node (first-handled-link dispatch with
fall-through to the nested-string branch), composite node, formatted
content node.  In the annotated fall-through the source recurses on the
node's bare-primitive `string`; that call is inlined to its value (the
bare-primitive branch applied to `s`), keeping the recursion
structural. -/
def parseStringDocumentItemE (item : OchreStringRichTextItem)
    (footnotes : List Footnote) : Except String (String × List Footnote) :=
  match item with
  | .fake f => .ok (parseEmailAndUrl (parseFakeString f), footnotes)
  | .wsOnly ws => .ok (if ws == "newline" then "  \n" else "", footnotes)
  | .annot _ s links =>
    match renderLinks (escapeAnnot (parseFakeString s)) links footnotes with
    | .error e => .error e
    | .ok (some out, fns) => .ok (out, fns)
    | .ok (none, fns) =>
      .ok (stripApos (parseEmailAndUrl (parseFakeString s)), fns)
  | .composite children ws =>
    match parseDocumentItemsFold children footnotes with
    | .error e => .error e
    | .ok (acc, fns) =>
      let acc' :=
        if strTruthy ws then
          parseWhitespace (parseEmailAndUrl acc) (ws.getD "")
        else acc
      .ok (stripApos acc', fns)
  | .content c =>
    let s0 := parseFakeString c.content
    let s1 :=
      if strTruthy c.rend then
        parseRenderOptions (parseEmailAndUrl s0) (c.rend.getD "")
      else s0
    let s2 :=
      if strTruthy c.whitespace then
        parseWhitespace (parseEmailAndUrl s1) (c.whitespace.getD "")
      else s1
    .ok (stripApos s2, footnotes)

/-- Concatenates the renderings of a list of rich text items, threading
footnotes. -/
def parseDocumentItemsFold (items : List OchreStringRichTextItem)
    (footnotes : List Footnote) : Except String (String × List Footnote) :=
  match items with
  | [] => .ok ("", footnotes)
  | item :: rest =>
    match parseStringDocumentItemE item footnotes with
    | .error e => .error e
    | .ok (s, fns) =>
      match parseDocumentItemsFold rest fns with
      | .error e => .error e
      | .ok (s', fns') => .ok (s ++ s', fns')

end

/-- A rendered document: content string plus collected footnotes. -/
structure DocumentOut where
  content : String
  footnotes : List Footnote
  deriving Repr, DecidableEq

/-- Parses OCHRE document data into a standardized document
(`parseDocument`).  An array input selects the item whose language tag
equals the requested code with a non-null assertion: when no item matches,
the subsequent property access crashes, modelled as an error.  A single
non-array input is used without any language check. -/
def parseDocumentE (document : OneOrMany OchreStringRichText)
    (language : String := "eng") : Except String DocumentOut :=
  let docWithLang? : Option OchreStringRichText :=
    match document with
    | .many docs => docs.find? fun d => d.lang == some language
    | .one d => some d
  match docWithLang? with
  | none => .error "TypeError: cannot read properties of undefined (reading string)"
  | some dw =>
    match dw.string with
    | .one (.fake f) => .ok ⟨parseEmailAndUrl (parseFakeString f), []⟩
    | .one item =>
      match parseDocumentItemsFold [item] [] with
      | .error e => .error e
      | .ok (s, fns) => .ok ⟨s, fns⟩
    | .many items =>
      match parseDocumentItemsFold items [] with
      | .error e => .error e
      | .ok (s, fns) => .ok ⟨s, fns⟩

/-! Parsed (standardized) types from `types/main.d.ts`, and the entity
parsers of the claims' parser module (the first revision contained in the
repository snapshot, whose line numbers the claims cite). -/

/-- Parsed identification. -/
structure Identification where
  label : String
  abbreviation : String
  deriving Repr, DecidableEq

/-- Parses an OCHRE identification object (`parseIdentification`): the
label and the remaining keys are language-resolved; any failure is caught
and yields the empty identification. -/
def parseIdentification (ident : OchreIdentification) : Identification :=
  match parseStringContent ident.label,
      (match ident.abbreviation with
        | some a => (parseStringContent a).map some
        | none => .ok none) with
  | .ok l, .ok (some a) => ⟨l, a⟩
  | .ok l, .ok none => ⟨l, ""⟩
  | _, _ => ⟨"", ""⟩

/-- Parsed context item. -/
structure ContextItem where
  uuid : String
  publicationDateTime : Option JsDate
  number : Int
  content : String
  deriving Repr, DecidableEq

/-- Parsed context node. -/
structure ContextNode where
  tree : ContextItem
  project : ContextItem
  spatialUnit : List ContextItem
  deriving Repr, DecidableEq

/-- Parsed context. -/
structure Context where
  nodes : List ContextNode
  displayPath : String
  deriving Repr, DecidableEq

/-- Parses an OCHRE context item (`parseContextItem`). -/
def parseContextItem (ci : OchreContextItem) : ContextItem :=
  { uuid := ci.uuid
    publicationDateTime :=
      if strTruthy ci.publicationDateTime then
        some (.ofString (ci.publicationDateTime.getD ""))
      else none
    number := ci.n
    content := parseFakeString ci.content }

/-- Parses OCHRE context data (`parseContext`). -/
def parseContext (ctx : OchreContext) : Context :=
  { nodes := ctx.context.toList.map fun cv =>
      { tree := parseContextItem cv.tree
        project := parseContextItem cv.project
        spatialUnit :=
          match cv.spatialUnit with
          | some su => su.toList.map parseContextItem
          | none => [] }
    displayPath := ctx.displayPath }

/-- Parsed license. -/
structure License where
  content : String
  url : String
  deriving Repr, DecidableEq

/-- Parses OCHRE license data (`parseLicense`): a plain-string payload
gives `null`. -/
def parseLicense (l : OchreLicense) : Option License :=
  match l.license with
  | .str _ => none
  | .obj content target => some ⟨content, target⟩

/-- Parsed person. -/
structure Person where
  uuid : String
  publicationDateTime : Option JsDate
  type : Option String
  date : Option JsDate
  identification : Option Identification
  content : Option String
  deriving Repr, DecidableEq

/-- Parses an array of OCHRE person objects (`parsePersons`). -/
def parsePersons (persons : List OchrePerson) : List Person :=
  persons.map fun p =>
    { uuid := p.uuid
      publicationDateTime :=
        if strTruthy p.publicationDateTime then
          some (.ofString (p.publicationDateTime.getD ""))
        else none
      type := p.type
      date :=
        if strTruthy p.date then some (.ofString (p.date.getD "")) else none
      identification := p.identification.map parseIdentification
      content :=
        if fakeTruthy p.content then
          some (parseFakeString (p.content.getD (.str "")))
        else none }

/-- Parsed property value. -/
structure PropertyValue where
  content : String
  type : String
  category : Option String
  uuid : Option String
  publicationDateTime : Option JsDate
  deriving Repr, DecidableEq

/-- Parsed property with recursive children. -/
inductive Property where
  | mk (label : String) (values : List PropertyValue)
      (comment : Option String) (properties : List Property)
  deriving Repr

/-- Label of a parsed property. -/
def Property.label : Property → String
  | .mk l _ _ _ => l

/-- Values of a parsed property. -/
def Property.values : Property → List PropertyValue
  | .mk _ v _ _ => v

/-- Comment of a parsed property. -/
def Property.comment : Property → Option String
  | .mk _ _ c _ => c

/-- Children of a parsed property. -/
def Property.properties : Property → List Property
  | .mk _ _ _ p => p

/-- JavaScript `\s`-trim at both ends. -/
def jsTrim (s : String) : String :=
  ⟨((s.data.dropWhile isJsWs).reverse.dropWhile isJsWs).reverse⟩

/-- The `.replace(/\s*\.{3}$/, "")` pass on property labels: removes three
trailing dots and the whitespace run immediately before them. -/
def trimEllipsisDots (s : String) : String :=
  match s.data.reverse with
  | '.' :: '.' :: '.' :: rest => ⟨(rest.dropWhile isJsWs).reverse⟩
  | _ => s

/-- Parses one raw property value of `parseProperties`: content resolved
with the default language, the `"value"` category collapsed to `null`. -/
def parsePropertyValueE (v : OchrePropertyValue) : Except String PropertyValue := do
  let content ← parseStringContent ⟨v.content⟩
  pure
    { content
      type := v.type
      category := if v.category == some "value" then none else v.category
      uuid := v.uuid
      publicationDateTime :=
        if strTruthy v.publicationDateTime then
          some (.ofString (v.publicationDateTime.getD ""))
        else none }

mutual

/-- Parses one OCHRE property (the loop body of `parseProperties`): values
first, then the language-resolved label with the trailing-ellipsis trim,
the comment, and the recursive children (parsed with the default
language). -/
def parsePropertyE (p : OchreProperty) (language : String) :
    Except String Property :=
  match p with
  | .mk label value comment children => do
    let valuesToParse := match value with | some v => v.toList | none => []
    let values ← valuesToParse.mapM parsePropertyValueE
    let lab ← parseStringContent label language
    let childrenParsed ←
      match children with
      | some cs => parsePropertyListE cs "eng"
      | none => pure []
    pure (.mk (jsTrim (trimEllipsisDots lab)) values
      (if fakeTruthy comment then
        some (parseFakeString (comment.getD (.str ""))) else none)
      childrenParsed)

/-- Parses a list of OCHRE properties (`parseProperties`). -/
def parsePropertyListE (ps : List OchreProperty) (language : String) :
    Except String (List Property) :=
  match ps with
  | [] => pure []
  | p :: rest => do
    let p' ← parsePropertyE p language
    let rest' ← parsePropertyListE rest language
    pure (p' :: rest')

end

/-- Parsed bibliography. -/
structure Bibliography where
  uuid : String
  publicationDateTime : Option JsDate
  type : String
  number : Int
  identification : Identification
  projectIdentification : Option Identification
  context : Option Context
  citationShort : Option String
  citationLong : Option String
  publishers : List Person
  startDate : Option JsDate
  entryInfo : Option (String × String)
  sourceResourceUuid : Option (String × String × Option JsDate × Identification)
  sourceDocumentUrl : Option String
  authors : List Person
  properties : List Property
  deriving Repr

/-- Parses an OCHRE bibliography (`parseBibliography`). -/
def parseBibliographyE (b : OchreBibliography) : Except String Bibliography := do
  let properties ←
    match b.properties with
    | some ps => parsePropertyListE ps "eng"
    | none => pure []
  pure
    { uuid := b.uuid
      publicationDateTime :=
        if strTruthy b.publicationDateTime then
          some (.ofString (b.publicationDateTime.getD ""))
        else none
      type := b.type
      number := b.n
      identification := parseIdentification b.identification
      projectIdentification := b.projectIdentification.map parseIdentification
      context := b.context.map parseContext
      citationShort :=
        match b.citationFormatSpan with
        | some (.defaultSpan c) => some (parseFakeString c)
        | some (.span c) => some (parseFakeString c)
        | none => none
      citationLong :=
        match b.referenceFormatDiv with
        | some (.defaultDiv _ c _ _) => some (parseFakeString c)
        | some (.div _ c _ _) => some (parseFakeString c)
        | none => none
      publishers :=
        match b.publishersPersons with
        | some ps => parsePersons ps.toList
        | none => []
      startDate :=
        match b.startDate with
        | some (y, m, d) => some (.ofYMD y m d)
        | none => none
      entryInfo :=
        match b.entryInfo with
        | some (i, v) => some (parseFakeString i, parseFakeString v)
        | none => none
      sourceResourceUuid := b.sourceResource.map fun r =>
        (r.uuid, r.type,
          (if strTruthy r.publicationDateTime then
            some (JsDate.ofString (r.publicationDateTime.getD "")) else none),
          parseIdentification r.identification)
      sourceDocumentUrl := b.sourceDocumentUuid.map fun u =>
        "https://ochre.lib.uchicago.edu/ochre?uuid=" ++ u ++ "&load"
      authors :=
        match b.authorsPersons with
        | some ps => parsePersons ps.toList
        | none => []
      properties }

/-- Parses an array of OCHRE bibliographies (`parseBibliographies`). -/
def parseBibliographiesE (bs : List OchreBibliography) :
    Except String (List Bibliography) :=
  bs.mapM parseBibliographyE

/-- Image-geometry block of a parsed link. -/
structure LinkImage where
  isInline : Bool
  heightPreview : Int
  widthPreview : Int
  height : Int
  width : Int
  deriving Repr, DecidableEq

/-- Parsed link. -/
structure Link where
  variant : Option String
  content : Option String
  uuid : String
  type : Option String
  identification : Option Identification
  image : Option LinkImage
  bibliographies : Option (List Bibliography)
  publicationDateTime : Option JsDate
  deriving Repr

/-- Transcription of the source condition `"resource" in link` inside the
per-item loop of `parseLink`.  There `link` ranges over the link ITEMS
(`OchreLinkItem` or `OchreBibliography`), not over the raw link wrapper:
neither item type declares a `resource` key, so the test is false on every
input that conforms to the declared raw types. -/
def linkItemHasResourceKey (_ : OchreLinkItem) : Bool := false

/-- The same `"resource" in link` test for bibliography link items. -/
def bibItemHasResourceKey (_ : OchreBibliography) : Bool := false

/-- Build of one returned link for an item-carrying variant of
`parseLink`; `variantName` is the first present key of the raw link and
`bibs` the parsed bibliographies for bibliography links (`null`
otherwise). -/
def buildLinkFromItem (variantName : String) (li : OchreLinkItem)
    (bibs : Option (List Bibliography)) : Link :=
  let base : Link :=
    { variant := some variantName
      content :=
        if fakeTruthy li.content then
          some (parseFakeString (li.content.getD (.str "")))
        else none
      uuid := li.uuid
      type := li.type
      identification := li.identification.map parseIdentification
      image := none
      bibliographies := bibs
      publicationDateTime :=
        if strTruthy li.publicationDateTime then
          some (.ofString (li.publicationDateTime.getD ""))
        else none }
  if linkItemHasResourceKey li && numTruthy li.height && numTruthy li.width &&
      numTruthy li.heightPreview && numTruthy li.widthPreview then
    let img : LinkImage :=
      ⟨li.rend == some "inline", li.heightPreview.getD 0,
        li.widthPreview.getD 0, li.height.getD 0, li.width.getD 0⟩
    { base with image := some img }
  else base

/-- Parses OCHRE link data (`parseLink`): the variant is the first present
key, every wrapped item yields one `Link`, and only bibliography links
resolve nested bibliographies. -/
def parseLinkE (linkRaw : OchreLink) : Except String (List Link) :=
  match linkRaw with
  | .resource items => pure (items.toList.map (buildLinkFromItem "resource" · none))
  | .concept items => pure (items.toList.map (buildLinkFromItem "concept" · none))
  | .set items => pure (items.toList.map (buildLinkFromItem "set" · none))
  | .person items => pure (items.toList.map (buildLinkFromItem "person" · none))
  | .epigraphicUnit items =>
    pure (items.toList.map (buildLinkFromItem "epigraphicUnit" · none))
  | .bibliography items => do
    let bibs ← parseBibliographiesE items.toList
    pure (items.toList.map fun b =>
      let base : Link :=
        { variant := some "bibliography"
          content := none
          uuid := b.uuid
          type := some b.type
          identification := some (parseIdentification b.identification)
          image := none
          bibliographies := some bibs
          publicationDateTime :=
            if strTruthy b.publicationDateTime then
              some (.ofString (b.publicationDateTime.getD ""))
            else none }
      if bibItemHasResourceKey b then base else base)

/-- Parses an array of OCHRE links (`parseLinks`). -/
def parseLinksE (links : List OchreLink) : Except String (List Link) := do
  let parsed ← links.mapM parseLinkE
  pure parsed.flatten

/-- Raw OCHRE image (`OchreImage`). -/
structure OchreImage where
  publicationDateTime : Option String := none
  identification : Option OchreIdentification := none
  href : Option String := none
  htmlImgSrcPrefix : Option String := none
  content : Option FakeString := none
  deriving Repr, DecidableEq

/-- Parsed image. -/
structure Image where
  publicationDateTime : Option JsDate
  identification : Option Identification
  url : Option String
  htmlPrefix : Option String
  content : Option String
  deriving Repr, DecidableEq

/-- Parses OCHRE image data (`parseImage`). -/
def parseImage (img : OchreImage) : Image :=
  { publicationDateTime :=
      if strTruthy img.publicationDateTime then
        some (.ofString (img.publicationDateTime.getD ""))
      else none
    identification := img.identification.map parseIdentification
    url :=
      match img.href with
      | some h => some h
      | none =>
        if !strTruthy img.htmlImgSrcPrefix && fakeTruthy img.content then
          some (parseFakeString (img.content.getD (.str "")))
        else none
    htmlPrefix := img.htmlImgSrcPrefix
    content :=
      if strTruthy img.htmlImgSrcPrefix && fakeTruthy img.content then
        some (parseFakeString (img.content.getD (.str "")))
      else none }

/-- Raw OCHRE note (`OchreNote`): a bare string or a numbered rich-text
payload. -/
inductive OchreNote where
  | str (s : String)
  | obj (noteNo : Int) (content : OneOrMany OchreStringRichText)
  deriving Repr

/-- Parsed note. -/
structure Note where
  number : Int
  title : Option String
  content : String
  deriving Repr, DecidableEq

/-- Parses OCHRE notes (`parseNotes`): empty strings are dropped silently,
plain strings get note number `-1`, rich payloads select the requested
language with a first-item fallback and error only when no content item
exists at all. -/
def parseNotesE (notes : List OchreNote) (language : String := "eng") :
    Except String (List Note) :=
  match notes with
  | [] => pure []
  | .str s :: rest => do
    let rest' ← parseNotesE rest language
    if s == "" then
      pure rest'
    else
      pure ({ number := -1, title := none, content := s } :: rest')
  | .obj noteNo content :: rest => do
    let notesToParse := content.toList
    let noteWithLanguage? :=
      match notesToParse.find? (fun item => item.lang == some language) with
      | some n => some n
      | none => notesToParse.head?
    match noteWithLanguage? with
    | none => .error "Note does not have a valid content item"
    | some nwl => do
      let contentStr ←
        match nwl.string with
        | .one (.fake f) => pure (parseEmailAndUrl (parseFakeString f))
        | _ => do
          let doc ← parseDocumentE (.one nwl)
          pure (parseEmailAndUrl doc.content)
      let rest' ← parseNotesE rest language
      pure ({ number := noteNo
              title :=
                if fakeTruthy nwl.title then
                  some (parseFakeString (nwl.title.getD (.str "")))
                else none
              content := contentStr } :: rest')

/-- Raw OCHRE coordinates (`OchreCoordinates`); numeric payloads are kept
as integers by the embedding. -/
structure OchreCoordinates where
  latitude : Int
  longitude : Int
  coordType : Option String := none
  coordLabel : Option FakeString := none
  deriving Repr, DecidableEq

/-- Parsed coordinates. -/
structure Coordinates where
  latitude : Int
  longitude : Int
  type : Option String
  label : Option String
  deriving Repr, DecidableEq

/-- Parses OCHRE coordinates (`parseCoordinates`); the optional `coord`
block is flattened to the two fields the parser reads. -/
def parseCoordinates (c : OchreCoordinates) : Coordinates :=
  { latitude := c.latitude
    longitude := c.longitude
    type := c.coordType
    label :=
      if fakeTruthy c.coordLabel then
        some (parseFakeString (c.coordLabel.getD (.str "")))
      else none }

/-- Raw OCHRE observation (`OchreObservation`). -/
structure OchreObservation where
  observationNo : Int
  date : Option String := none
  observers : Option FakeString := none
  notes : Option (OneOrMany OchreNote) := none
  links : Option (OneOrMany OchreLink) := none
  properties : Option (List OchreProperty) := none
  deriving Repr

/-- Parsed observation. -/
structure Observation where
  number : Int
  date : Option JsDate
  observers : List String
  notes : List Note
  links : List Link
  properties : List Property
  deriving Repr

/-- Parses an OCHRE observation (`parseObservation`): observers split on
semicolons and trimmed. -/
def parseObservationE (o : OchreObservation) : Except String Observation := do
  let notes ←
    match o.notes with
    | some ns => parseNotesE ns.toList
    | none => pure []
  let links ←
    match o.links with
    | some ls => parseLinksE ls.toList
    | none => pure []
  let properties ←
    match o.properties with
    | some ps => parsePropertyListE ps "eng"
    | none => pure []
  pure
    { number := o.observationNo
      date := if strTruthy o.date then some (.ofString (o.date.getD "")) else none
      observers :=
        if fakeTruthy o.observers then
          (jsSplit (parseFakeString (o.observers.getD (.str ""))) (Char.ofNat 59)).map jsTrim
        else []
      notes, links, properties }

/-- Parses an array of OCHRE observations (`parseObservations`). -/
def parseObservationsE (os : List OchreObservation) :
    Except String (List Observation) :=
  os.mapM parseObservationE

/-- Raw OCHRE event (`OchreEvent`). -/
structure OchreEvent where
  dateTime : Option String := none
  agent : Option (String × FakeString) := none
  label : OchreStringContent
  deriving Repr, DecidableEq

/-- Parsed event. -/
structure Event where
  date : Option JsDate
  label : String
  agent : Option (String × String)
  deriving Repr, DecidableEq

/-- Parses OCHRE events (`parseEvents`). -/
def parseEventsE (events : List OchreEvent) : Except String (List Event) :=
  events.mapM fun e => do
    let label ← parseStringContent e.label
    pure
      { date :=
          if strTruthy e.dateTime then some (.ofString (e.dateTime.getD ""))
          else none
        label
        agent := e.agent.map fun (u, c) => (u, parseFakeString c) }

/-- Raw OCHRE image map area (`OchreImageMapArea`). -/
structure OchreImageMapArea where
  uuid : String
  publicationDateTime : Option String := none
  type : String
  title : FakeString
  shape : String
  coords : String
  deriving Repr, DecidableEq

/-- Raw OCHRE image map (`OchreImageMap`). -/
structure OchreImageMap where
  area : OneOrMany OchreImageMapArea
  width : Int
  height : Int
  deriving Repr, DecidableEq

/-- JavaScript `Number.parseInt`: the leading integer of the string, or
`NaN` (modelled as `none`). -/
def jsParseInt (s : String) : Option Int :=
  let t := s.data.dropWhile isJsWs
  let (sign, digits) :=
    match t with
    | '-' :: rest => (-1, rest.takeWhile Char.isDigit)
    | '+' :: rest => (1, rest.takeWhile Char.isDigit)
    | _ => ((1 : Int), t.takeWhile Char.isDigit)
  if digits.isEmpty then none
  else some (sign * (String.mk digits).toNat!)

/-- Parsed image map area. -/
structure ImageMapArea where
  uuid : String
  publicationDateTime : Option JsDate
  type : String
  title : String
  shape : String
  coords : List (Option Int)
  deriving Repr, DecidableEq

/-- Parsed image map. -/
structure ImageMap where
  area : List ImageMapArea
  width : Int
  height : Int
  deriving Repr, DecidableEq

/-- Parses an OCHRE image map (`parseImageMap`): `"rect"` maps to
`"rectangle"`, anything else to `"polygon"`; coordinates are split on
commas and parsed as integers. -/
def parseImageMap (im : OchreImageMap) : ImageMap :=
  { area := im.area.toList.map fun a =>
      { uuid := a.uuid
        publicationDateTime :=
          if strTruthy a.publicationDateTime then
            some (.ofString (a.publicationDateTime.getD ""))
          else none
        type := a.type
        title := parseFakeString a.title
        shape := if a.shape == "rect" then "rectangle" else "polygon"
        coords := (jsSplit a.coords (Char.ofNat 44)).map jsParseInt }
    width := im.width
    height := im.height }

/-- Raw OCHRE period (`OchrePeriod`). -/
structure OchrePeriod where
  uuid : String
  publicationDateTime : Option String := none
  type : String
  identification : OchreIdentification
  deriving Repr, DecidableEq

/-- Parsed period. -/
structure Period where
  uuid : String
  publicationDateTime : Option JsDate
  type : String
  identification : Identification
  deriving Repr, DecidableEq

/-- Parses an OCHRE period (`parsePeriod`). -/
def parsePeriod (p : OchrePeriod) : Period :=
  { uuid := p.uuid
    publicationDateTime :=
      if strTruthy p.publicationDateTime then
        some (.ofString (p.publicationDateTime.getD ""))
      else none
    type := p.type
    identification := parseIdentification p.identification }

/-- Raw OCHRE resource (`OchreResource`); the recursive `resource` child
collection is kept array-wrapped, and optional-key checks (`"context" in
resource` and friends) correspond to `Option` presence. -/
inductive OchreResource where
  | mk (uuid : String) (publicationDateTime : Option String) (type : String)
      (n : Int) (slug : Option String) (format : Option String)
      (context : Option OchreContext) (availability : Option OchreLicense)
      (copyright : Option FakeString) (identification : OchreIdentification)
      (href : Option String) (description : Option OchreStringContent)
      (date : Option String) (image : Option OchreImage)
      (creators : Option (OneOrMany OchrePerson))
      (notes : Option (OneOrMany OchreNote))
      (document : Option (OneOrMany OchreStringRichText))
      (imagemap : Option OchreImageMap)
      (periods : Option (OneOrMany OchrePeriod))
      (links : Option (OneOrMany OchreLink))
      (reverseLinks : Option (OneOrMany OchreLink))
      (properties : Option (List OchreProperty))
      (citedBibliography : Option (OneOrMany OchreBibliography))
      (resource : Option (List OchreResource))

/-- Field accessors for the raw resource. -/
def OchreResource.uuid : OchreResource → String
  | .mk u _ _ _ _ _ _ _ _ _ _ _ _ _ _ _ _ _ _ _ _ _ _ _ => u

/-- Publication timestamp of a raw resource. -/
def OchreResource.publicationDateTime : OchreResource → Option String
  | .mk _ p _ _ _ _ _ _ _ _ _ _ _ _ _ _ _ _ _ _ _ _ _ _ => p

/-- Slug of a raw resource. -/
def OchreResource.slug : OchreResource → Option String
  | .mk _ _ _ _ s _ _ _ _ _ _ _ _ _ _ _ _ _ _ _ _ _ _ _ => s

/-- Identification of a raw resource. -/
def OchreResource.identification : OchreResource → OchreIdentification
  | .mk _ _ _ _ _ _ _ _ _ i _ _ _ _ _ _ _ _ _ _ _ _ _ _ => i

/-- Links of a raw resource. -/
def OchreResource.links : OchreResource → Option (OneOrMany OchreLink)
  | .mk _ _ _ _ _ _ _ _ _ _ _ _ _ _ _ _ _ _ _ l _ _ _ _ => l

/-- Document of a raw resource. -/
def OchreResource.document : OchreResource → Option (OneOrMany OchreStringRichText)
  | .mk _ _ _ _ _ _ _ _ _ _ _ _ _ _ _ _ d _ _ _ _ _ _ _ => d

/-- Properties of a raw resource. -/
def OchreResource.properties : OchreResource → Option (List OchreProperty)
  | .mk _ _ _ _ _ _ _ _ _ _ _ _ _ _ _ _ _ _ _ _ _ p _ _ => p

/-- Child resources of a raw resource. -/
def OchreResource.resource : OchreResource → Option (List OchreResource)
  | .mk _ _ _ _ _ _ _ _ _ _ _ _ _ _ _ _ _ _ _ _ _ _ _ r => r

/-- The runtime object returned by `parseResource`: one record type for
both the full and the nested form, with `JsField` tracking the
provenance fields that the nested branch nulls or deletes. -/
inductive ResourceObj where
  | mk (uuid : String) (publicationDateTime : JsField JsDate) (type : String)
      (number : Int) (format : Option String) (context : JsField Context)
      (license : JsField License) (copyright : JsField String)
      (identification : Identification) (date : Option JsDate)
      (image : Option Image) (creators : List Person) (notes : List Note)
      (description : String) (document : Option DocumentOut)
      (href : Option String) (imageMap : Option ImageMap)
      (periods : List Period) (links : List Link) (reverseLinks : List Link)
      (properties : List Property) (citedBibliographies : List Bibliography)
      (resources : List ResourceObj)

/-- Publication timestamp field of a parsed resource object. -/
def ResourceObj.publicationDateTime : ResourceObj → JsField JsDate
  | .mk _ p _ _ _ _ _ _ _ _ _ _ _ _ _ _ _ _ _ _ _ _ _ => p

/-- Context field of a parsed resource object. -/
def ResourceObj.context : ResourceObj → JsField Context
  | .mk _ _ _ _ _ c _ _ _ _ _ _ _ _ _ _ _ _ _ _ _ _ _ => c

/-- License field of a parsed resource object. -/
def ResourceObj.license : ResourceObj → JsField License
  | .mk _ _ _ _ _ _ l _ _ _ _ _ _ _ _ _ _ _ _ _ _ _ _ => l

/-- Copyright field of a parsed resource object. -/
def ResourceObj.copyright : ResourceObj → JsField String
  | .mk _ _ _ _ _ _ _ c _ _ _ _ _ _ _ _ _ _ _ _ _ _ _ => c

/-- Uuid of a parsed resource object. -/
def ResourceObj.uuid : ResourceObj → String
  | .mk u _ _ _ _ _ _ _ _ _ _ _ _ _ _ _ _ _ _ _ _ _ _ => u

/-- The nested-form rewrite at the end of `parseResource`: the spread
copies every field, `publicationDateTime`, `license` and `copyright` are
nulled and then deleted, while `context` is only nulled and keeps its
key. -/
def nestifyResource : ResourceObj → ResourceObj
  | .mk uuid _ type number format _ _ _ identification date image creators
      notes description document href imageMap periods links reverseLinks
      properties citedBibliographies resources =>
    .mk uuid .absent type number format .nullv .absent .absent identification
      date image creators notes description document href imageMap periods
      links reverseLinks properties citedBibliographies resources

mutual

/-- Assembly of the full record of `parseResource` (child resources always
nested). -/
def buildResourceE (r : OchreResource) : Except String ResourceObj :=
  match r with
  | .mk uuid publicationDateTime type n _slug format context availability
      copyright identification href description date image creators notes
      document imagemap periods links reverseLinks properties
      citedBibliography resource =>
    (match notes with
      | some ns => parseNotesE ns.toList
      | none => pure []) >>= fun notesParsed =>
    (match description with
      | some d => parseStringContent d
      | none => pure "") >>= fun descriptionParsed =>
    (match document with
      | some d => (parseDocumentE d).map some
      | none => pure none) >>= fun documentParsed =>
    (match links with
      | some ls => parseLinksE ls.toList
      | none => pure []) >>= fun linksParsed =>
    (match reverseLinks with
      | some ls => parseLinksE ls.toList
      | none => pure []) >>= fun reverseLinksParsed =>
    (match properties with
      | some ps => parsePropertyListE ps "eng"
      | none => pure []) >>= fun propertiesParsed =>
    (match citedBibliography with
      | some bs => parseBibliographiesE bs.toList
      | none => pure []) >>= fun citedParsed =>
    (match resource with
      | some rs => parseResourceListE rs
      | none => pure []) >>= fun resourcesParsed =>
    let base : ResourceObj :=
      .mk uuid
        (if strTruthy publicationDateTime then
          .val (.ofString (publicationDateTime.getD "")) else .nullv)
        type n format
        (match context with
          | some c => .val (parseContext c)
          | none => .nullv)
        (match availability with
          | some l =>
            match parseLicense l with
            | some lic => .val lic
            | none => .nullv
          | none => .nullv)
        (if fakeTruthy copyright then
          .val (parseFakeString (copyright.getD (.str ""))) else .nullv)
        (parseIdentification identification)
        (if strTruthy date then some (.ofString (date.getD "")) else none)
        (image.map parseImage)
        (match creators with
          | some cs => parsePersons cs.toList
          | none => [])
        notesParsed descriptionParsed documentParsed href
        (imagemap.map parseImageMap)
        (match periods with
          | some ps => ps.toList.map parsePeriod
          | none => [])
        linksParsed reverseLinksParsed propertiesParsed citedParsed
        resourcesParsed
    pure base

/-- Parses a list of OCHRE resources with `isNested = true` (the child
branch of `parseResource` via `parseResources`); the nested call
`parseResource(resource, true)` is written as the build followed by the
nested-form rewrite, which is what that call evaluates to. -/
def parseResourceListE (rs : List OchreResource) :
    Except String (List ResourceObj) :=
  match rs with
  | [] => pure []
  | r :: rest => do
    let r' ← (buildResourceE r).map nestifyResource
    let rest' ← parseResourceListE rest
    pure (r' :: rest')

end

/-- Parses an OCHRE resource (`parseResource`): assembles the full record
and, when `isNested` is set, applies the nested-form rewrite. -/
def parseResourceE (r : OchreResource) (isNested : Bool) :
    Except String ResourceObj :=
  (buildResourceE r).map
    (fun base => if isNested then nestifyResource base else base)

/-- Raw OCHRE spatial unit (`OchreSpatialUnit`); nested raw spatial units
are the same shape with the omitted keys set to `none`. -/
structure OchreSpatialUnit where
  uuid : String
  publicationDateTime : Option String := none
  type : String
  n : Int
  availability : Option OchreLicense := none
  context : Option OchreContext := none
  identification : OchreIdentification
  image : Option OchreImage := none
  description : Option OchreStringContent := none
  coordinates : Option OchreCoordinates := none
  events : Option (OneOrMany OchreEvent) := none
  observations : Option (OneOrMany OchreObservation) := none
  observation : Option OchreObservation := none
  properties : Option (List OchreProperty) := none
  deriving Repr

/-- The runtime object returned by `parseSpatialUnit`: the nested branch
deletes `publicationDateTime` and `license` and attaches the inline
property list the full form lacks (modelled as an absent field there);
`observations` and `events` survive the spread into the nested form even
though the nested type omits them. -/
structure SpatialUnitObj where
  uuid : String
  publicationDateTime : JsField JsDate
  type : String
  number : Int
  context : Option Context
  license : JsField License
  identification : Identification
  image : Option Image
  description : String
  coordinates : Option Coordinates
  observations : List Observation
  events : List Event
  properties : JsField (List Property)

/-- Parses an OCHRE spatial unit (`parseSpatialUnit`). -/
def parseSpatialUnitE (su : OchreSpatialUnit) (isNested : Bool) :
    Except String SpatialUnitObj :=
  (match su.description with
    | some d => parseStringContent d
    | none => pure "") >>= fun descriptionParsed =>
  (match su.observations with
    | some os => parseObservationsE os.toList
    | none =>
      match su.observation with
      | some o => (parseObservationE o).map (fun o' => [o'])
      | none => pure []) >>= fun observationsParsed =>
  (match su.events with
    | some es => parseEventsE es.toList
    | none => pure []) >>= fun eventsParsed =>
  let base : SpatialUnitObj :=
    { uuid := su.uuid
      publicationDateTime :=
        if strTruthy su.publicationDateTime then
          .val (.ofString (su.publicationDateTime.getD "")) else .nullv
      type := su.type
      number := su.n
      context :=
        match su.context with
        | some c => some (parseContext c)
        | none => none
      license :=
        match su.availability with
        | some l =>
          match parseLicense l with
          | some lic => .val lic
          | none => .nullv
        | none => .nullv
      identification := parseIdentification su.identification
      image := su.image.map parseImage
      description := descriptionParsed
      coordinates := su.coordinates.map parseCoordinates
      observations := observationsParsed
      events := eventsParsed
      properties := .absent }
  if isNested then
    (match su.properties with
      | some ps => parsePropertyListE ps "eng"
      | none => pure []) >>= fun propertiesParsed =>
    pure { base with
      publicationDateTime := .absent
      license := .absent
      properties := .val propertiesParsed }
  else
    pure base

/-! Getters (`src/utils/getters.ts`): case-sensitive label lookup over
parsed property trees, with optional recursion into children. -/

mutual

/-- Size of one parsed property, used as a recursion budget for the
getters; the budget strictly dominates every recursion depth the getters
can reach, so the zero case below is never hit. -/
def propSize : Property → Nat
  | .mk _ _ _ children => 1 + propListSize children

/-- Size of a parsed property list. -/
def propListSize : List Property → Nat
  | [] => 1
  | p :: rest => 1 + propSize p + propListSize rest

end

mutual

/-- Budgeted body of `getPropertyByLabel`: first a level search, then
(when enabled) recursion into the children of each property at this
level. -/
def getPropertyByLabelGo : Nat → List Property → String → Bool → Option Property
  | 0, _, _, _ => none
  | fuel + 1, ps, label, searchNested =>
    match ps.find? (fun p => p.label == label) with
    | some p => some p
    | none =>
      if searchNested then getPropertyByLabelNestedGo fuel ps label else none

/-- The nested-search loop of `getPropertyByLabel`. -/
def getPropertyByLabelNestedGo : Nat → List Property → String → Option Property
  | 0, _, _ => none
  | _ + 1, [], _ => none
  | fuel + 1, .mk l v c children :: rest, label =>
    match (if children.length > 0 then
        getPropertyByLabelGo fuel children label true else none) with
    | some r => some r
    | none =>
      let _ := Property.mk l v c children
      getPropertyByLabelNestedGo fuel rest label

end

/-- Looks up a property by exact label (`getPropertyByLabel`). -/
def getPropertyByLabel (ps : List Property) (label : String)
    (searchNested : Bool := false) : Option Property :=
  getPropertyByLabelGo (propListSize ps) ps label searchNested

mutual

/-- Budgeted body of `getPropertyValuesByLabel`. -/
def getPropertyValuesByLabelGo : Nat → List Property → String → Bool → Option (List String)
  | 0, _, _, _ => none
  | fuel + 1, ps, label, searchNested =>
    match ps.find? (fun p => p.label == label) with
    | some p => some (p.values.map (fun v => v.content))
    | none =>
      if searchNested then getPropertyValuesNestedGo fuel ps label else none

/-- The nested-search loop of `getPropertyValuesByLabel`. -/
def getPropertyValuesNestedGo : Nat → List Property → String → Option (List String)
  | 0, _, _ => none
  | _ + 1, [], _ => none
  | fuel + 1, .mk _ _ _ children :: rest, label =>
    match (if children.length > 0 then
        getPropertyValuesByLabelGo fuel children label true else none) with
    | some r => some r
    | none => getPropertyValuesNestedGo fuel rest label

end

/-- Looks up all value contents of a property by label
(`getPropertyValuesByLabel`): `none` models the `null` absence
sentinel. -/
def getPropertyValuesByLabel (ps : List Property) (label : String)
    (searchNested : Bool := false) : Option (List String) :=
  getPropertyValuesByLabelGo (propListSize ps) ps label searchNested

mutual

/-- Budgeted body of `getPropertyValueByLabel`. -/
def getPropertyValueByLabelGo : Nat → List Property → String → Bool → Option String
  | 0, _, _, _ => none
  | fuel + 1, ps, label, searchNested =>
    match getPropertyValuesByLabel ps label searchNested with
    | some (v :: _) => some v
    | _ =>
      if searchNested then getPropertyValueNestedGo fuel ps label else none

/-- The nested-search loop of `getPropertyValueByLabel`. -/
def getPropertyValueNestedGo : Nat → List Property → String → Option String
  | 0, _, _ => none
  | _ + 1, [], _ => none
  | fuel + 1, .mk _ _ _ children :: rest, label =>
    match (if children.length > 0 then
        getPropertyValueByLabelGo fuel children label true else none) with
    | some r => some r
    | none => getPropertyValueNestedGo fuel rest label

end

/-- Looks up the first value content of a property by label
(`getPropertyValueByLabel`). -/
def getPropertyValueByLabel (ps : List Property) (label : String)
    (searchNested : Bool := false) : Option String :=
  getPropertyValueByLabelGo (propListSize ps) ps label searchNested

/-! Website, webpage and element layer of the parser module.  The external
`fetchResource` collaborator is threaded as a `fetch` function returning
either an error or the fetched resource's (possibly null) document. -/

/-- Parsed CSS style entry. -/
structure Style where
  label : String
  value : String
  deriving Repr, DecidableEq

/-- Parsed web image block. -/
structure WebImage where
  url : String
  label : Option String
  width : Int
  height : Int
  deriving Repr

/-- Webpage display properties. -/
structure WebpageProperties where
  displayedInHeader : Bool
  width : String
  backgroundImageUrl : Option String
  cssStyles : List Style
  tailwindClasses : List String
  deriving Repr

mutual

/-- A parsed web element: shared fields plus its component payload. -/
inductive WebElement where
  | mk (uuid : String) (title : String) (cssStyles : List Style)
      (tailwindClasses : List String) (component : WebElementComponent)

/-- Component payload variants of a web element (`WebElementComponent`);
fields the source leaves as unvalidated strings stay `String`. -/
inductive WebElementComponent where
  | annotatedDocument (document : DocumentOut)
  | annotatedImage (imageUrl : String)
  | bibliography (bibliographies : List Bibliography) (layout : String)
  | button (href : String)
  | buttonGroup (layout : String)
  | collection (variant : String) (layout : String) (collectionId : String)
  | iiifViewer (manifestUrl : String)
  | image (img : WebImage)
  | imageGallery
  | interactiveChapterTable
  | itemGallery
  | menu
  | menuItem
  | nColumns (columns : List WebElement)
  | nRows (rows : List WebElement)
  | networkGraph
  | table (headers : List String) (tableId : String)
  | text (variant : String) (content : String)
  | textImage (variant : String) (layout : String) (img : WebImage)
      (imageOpacity : Option Int) (content : String)

end

/-- A parsed webpage. -/
inductive Webpage where
  | mk (title : String) (slug : String) (properties : WebpageProperties)
      (elements : List WebElement) (webpages : List Webpage)

/-- Title of a parsed webpage. -/
def Webpage.title : Webpage → String
  | .mk t _ _ _ _ => t

/-- Slug of a parsed webpage. -/
def Webpage.slug : Webpage → String
  | .mk _ s _ _ _ => s

/-- Display properties of a parsed webpage. -/
def Webpage.properties : Webpage → WebpageProperties
  | .mk _ _ p _ _ => p

/-- Website configuration properties. -/
structure WebsiteProperties where
  type : String
  privacy : String
  status : String
  isHeaderDisplayed : Bool
  isFooterDisplayed : Bool
  isSidebarDisplayed : Bool
  logoUrl : Option String
  deriving Repr, DecidableEq

/-- A parsed website. -/
structure Website where
  uuid : String
  publicationDateTime : Option JsDate
  identification : Identification
  projectName : String
  projectWebsite : Option String
  creators : List Person
  license : Option License
  pages : List Webpage
  globalElements : List WebElement
  properties : WebsiteProperties

/-- The `componentSchema` zod enumeration: parsing throws on any tag
outside the closed set. -/
def componentSchemaParse (s : String) : Except String String :=
  if s ∈ ["annotated-document", "annotated-image", "bibliography", "button",
      "button-group", "collection", "iiif-viewer", "image", "image-gallery",
      "interactive-chapter-table", "item-gallery", "menu", "menu-item",
      "n-columns", "n-rows", "network-graph", "table", "text", "text-image"]
  then .ok s
  else .error "Invalid component"

/-- The shared find of `parseWebpageResources` and `parseWebElement`:
`properties.find((p) => p.label === "presentation" && p.values[0]!.content
=== value)`, whose non-null assertion crashes on a presentation property
with no values. -/
def findPresentationWith (ps : List Property) (val : String) :
    Except String (Option Property) :=
  match ps with
  | [] => .ok none
  | p :: rest =>
    if p.label == "presentation" then
      match p.values with
      | [] => .error "TypeError: cannot read properties of undefined"
      | v :: _ =>
        if v.content == val then .ok (some p)
        else findPresentationWith rest val
    else findPresentationWith rest val

mutual

/-- Nesting size of a raw resource, used as a call-stack budget for the
web layer; the budget computed by `webFuel` strictly dominates the
recursion depth reachable from well-typed input, so the exhaustion case of
the budgeted functions is never hit. -/
def resSize : OchreResource → Nat
  | .mk _ _ _ _ _ _ _ _ _ _ _ _ _ _ _ _ _ _ _ _ _ _ _ children =>
    match children with
    | some cs => 2 + resListSize cs
    | none => 2

/-- Nesting size of a raw resource list. -/
def resListSize : List OchreResource → Nat
  | [] => 1
  | r :: rest => 1 + resSize r + resListSize rest

end

/-- Call-stack budget for the web layer (models the JavaScript call
stack; exhaustion would be a stack overflow, which well-typed acyclic
input never reaches). -/
def webFuel (n : Nat) : Nat := 5 * n + 5

/-- The first value content of the `presentation` property of a parsed
property list (`find(...)?.values[0]?.content` in `parseWebpage`). -/
def presFirstValue (ps : List Property) : Option String :=
  match ps.find? (fun p => p.label == "presentation") with
  | some p =>
    match p.values with
    | v :: _ => some v.content
    | [] => none
  | none => none

mutual

/-- Parses the component payload of a web element
(`parseWebElementProperties`): validates the component tag, resolves
links, resolves the document (falling back to fetching the first
internal-document link), and dispatches on the component with its
per-component dependency checks. -/
def webElemPropsGo (fetch : String → Except String (Option DocumentOut)) :
    Nat → Property → OchreResource → Except String WebElementComponent
  | 0, _, _ => .error "Maximum call stack size exceeded"
  | fuel + 1, componentProperty, elementResource =>
  (match componentProperty.values with
    | [] => Except.error "TypeError: cannot read properties of undefined"
    | v :: _ => componentSchemaParse v.content) >>= fun componentName =>
  (match elementResource.links with
    | some ls => parseLinksE ls.toList
    | none => pure []) >>= fun links =>
  let imageLink := links.find? (fun l => l.type == some "image")
  (match elementResource.document with
    | some d => (parseDocumentE d).map some
    | none => pure none) >>= fun document0 =>
  (match document0 with
    | some d => pure (some d)
    | none =>
      match links.find? (fun l => l.type == some "internalDocument") with
      | some dl =>
        match fetch dl.uuid with
        | .error e => Except.error e
        | .ok d? => pure d?
      | none => pure none) >>= fun document =>
  match componentName with
  | "annotated-document" =>
    match document with
    | none => Except.error "Document not found for the following component: “annotated-document”"
    | some d => pure (.annotatedDocument d)
  | "annotated-image" =>
    match imageLink with
    | none => Except.error "Image link not found for the following component: “annotated-image”"
    | some l => pure (.annotatedImage
        ("https://ochre.lib.uchicago.edu/ochre?uuid=" ++ l.uuid ++ "&load"))
  | "bibliography" =>
    match links.find? (fun l => l.variant == some "bibliography") with
    | none => Except.error "Bibliography link not found for the following component: “bibliography”"
    | some bl =>
      match bl.bibliographies with
      | none => Except.error "Bibliography not found for the following component: “bibliography”"
      | some bibs =>
        let layout :=
          match getPropertyValueByLabel componentProperty.properties "layout" with
          | some l => if l == "" then "long" else l
          | none => "long"
        pure (.bibliography bibs layout)
  | "button" =>
    let navigateTo := getPropertyValueByLabel componentProperty.properties "navigate-to"
    match (if strTruthy navigateTo then navigateTo else none) with
    | some href => pure (.button href)
    | none =>
      let linkTo := getPropertyValueByLabel componentProperty.properties "link-to"
      match (if strTruthy linkTo then linkTo else none) with
      | some href => pure (.button href)
      | none => Except.error "Properties “navigate-to” or “link-to” not found for the following component: “button”"
  | "button-group" =>
    let layout :=
      match getPropertyValueByLabel componentProperty.properties "layout" with
      | some l => if l == "" then "horizontal" else l
      | none => "horizontal"
    pure (.buttonGroup layout)
  | "collection" =>
    let variant := getPropertyValueByLabel componentProperty.properties "variant"
    match (if strTruthy variant then variant else none) with
    | none => Except.error "Property “variant” not found for the following component: “collection”"
    | some v =>
      let layout :=
        match getPropertyValueByLabel componentProperty.properties "layout" with
        | some l => if l == "" then "image-start" else l
        | none => "image-start"
      match links.find? (fun l => l.variant == some "set") with
      | none => Except.error "Collection link not found for the following component: “collection”"
      | some cl => pure (.collection v layout cl.uuid)
  | "iiif-viewer" => pure (.iiifViewer "")
  | "image" =>
    match imageLink with
    | none => Except.error "Image link not found for the following component: “image”"
    | some l => pure (.image
        { url := "https://ochre.lib.uchicago.edu/ochre?uuid=" ++ l.uuid ++ "&load"
          label := l.identification.map (fun i => i.label)
          width := match l.image with | some i => i.width | none => 0
          height := match l.image with | some i => i.height | none => 0 })
  | "image-gallery" => pure .imageGallery
  | "interactive-chapter-table" => pure .interactiveChapterTable
  | "item-gallery" => pure .itemGallery
  | "menu" => pure .menu
  | "menu-item" => pure .menuItem
  | "n-columns" =>
    match elementResource.resource with
    | some rs => webElementsGo fetch fuel rs >>= fun subElements => pure (.nColumns subElements)
    | none => pure (.nColumns [])
  | "n-rows" =>
    match elementResource.resource with
    | some rs => webElementsGo fetch fuel rs >>= fun subElements => pure (.nRows subElements)
    | none => pure (.nRows [])
  | "network-graph" => pure .networkGraph
  | "table" => pure (.table [] "")
  | "text" =>
    match document with
    | none => Except.error "Document not found for the following component: “text”"
    | some d =>
      let variant :=
        match getPropertyValueByLabel componentProperty.properties "variant" with
        | some v => if v == "" then "block" else v
        | none => "block"
      pure (.text variant d.content)
  | "text-image" =>
    match document with
    | none => Except.error "Document not found for the following component: “text-image”"
    | some d =>
      let variant :=
        match getPropertyValueByLabel componentProperty.properties "variant" with
        | some v => if v == "" then "block" else v
        | none => "block"
      let layout :=
        match getPropertyValueByLabel componentProperty.properties "layout" with
        | some l => if l == "" then "image-start" else l
        | none => "image-start"
      match links.find? (fun l => l.type == some "image" || l.type == some "IIIF") with
      | none => Except.error "Image link not found for the following component: “text-image”"
      | some il => pure (.textImage variant layout
          { url := "https://ochre.lib.uchicago.edu/ochre?uuid=" ++ il.uuid ++ "&preview"
            label := il.identification.map (fun i => i.label)
            width := match il.image with | some i => i.width | none => 0
            height := match il.image with | some i => i.height | none => 0 }
          none d.content)
  | other =>
    match parseStringContent elementResource.identification.label with
    | .ok lab => Except.error ("Invalid or non-implemented component name “" ++ other ++
          "” for the following element: “" ++ lab ++ "”")
    | .error e => Except.error e

/-- Parses one web element (`parseWebElement`): requires a `component`
property among the element properties, resolves the component payload,
then collects tailwind classes and CSS styles from the element resource's
own `presentation` properties. -/
def webElemGo (fetch : String → Except String (Option DocumentOut)) :
    Nat → OchreResource → List Property → Except String WebElement
  | 0, _, _ => .error "Maximum call stack size exceeded"
  | fuel + 1, elementResource, elementProperties =>
  let identification := parseIdentification elementResource.identification
  match elementProperties.find? (fun p => p.label == "component") with
  | none => Except.error ("Component for element “" ++ identification.label ++ "” not found")
  | some componentProperty =>
    webElemPropsGo fetch fuel componentProperty elementResource >>= fun comp =>
    (match elementResource.properties with
      | some ps => parsePropertyListE ps "eng"
      | none => pure []) >>= fun elementResourceProperties =>
    findPresentationWith elementResourceProperties "tailwind" >>= fun tailwindFound =>
    let tailwindProperties :=
      match tailwindFound with
      | some p => p.properties
      | none => []
    (tailwindProperties.mapM fun p =>
      match p.values with
      | [] => Except.error "TypeError: cannot read properties of undefined"
      | v :: _ => pure (p.label ++ "-" ++ v.content)) >>= fun tailwindClasses =>
    findPresentationWith elementResourceProperties "css" >>= fun cssFound =>
    let cssProperties :=
      match cssFound with
      | some p => p.properties
      | none => []
    (cssProperties.mapM fun p =>
      match p.values with
      | [] => Except.error "TypeError: cannot read properties of undefined"
      | v :: _ => pure ({ label := p.label, value := v.content } : Style)) >>= fun cssStyles =>
    pure (.mk elementResource.uuid identification.label cssStyles
      tailwindClasses comp)

/-- The `"element"` instantiation of `parseWebpageResources`: keeps only
child resources whose first `presentation` value is `element` and parses
each as a web element using the presentation property's children. -/
def webElementsGo (fetch : String → Except String (Option DocumentOut)) :
    Nat → List OchreResource → Except String (List WebElement)
  | 0, _ => .error "Maximum call stack size exceeded"
  | _ + 1, [] => pure []
  | fuel + 1, r :: rest =>
    (match r.properties with
      | some ps => parsePropertyListE ps "eng"
      | none => pure []) >>= fun resourceProperties =>
    findPresentationWith resourceProperties "element" >>= fun found =>
    match found with
    | none => webElementsGo fetch fuel rest
    | some rp =>
      webElemGo fetch fuel r rp.properties >>= fun element =>
      webElementsGo fetch fuel rest >>= fun tl =>
      pure (element :: tl)

/-- The `"page"` instantiation of `parseWebpageResources`: keeps only
child resources whose first `presentation` value is `page` and keeps the
non-null parsed webpages. -/
def webPagesGo (fetch : String → Except String (Option DocumentOut)) :
    Nat → List OchreResource → Except String (List Webpage)
  | 0, _ => .error "Maximum call stack size exceeded"
  | _ + 1, [] => pure []
  | fuel + 1, r :: rest =>
    (match r.properties with
      | some ps => parsePropertyListE ps "eng"
      | none => pure []) >>= fun resourceProperties =>
    findPresentationWith resourceProperties "page" >>= fun found =>
    match found with
    | none => webPagesGo fetch fuel rest
    | some _ =>
      webpageGo fetch fuel r >>= fun webpage? =>
      webPagesGo fetch fuel rest >>= fun tl =>
      match webpage? with
      | some w => pure (w :: tl)
      | none => pure tl

/-- Parses one webpage (`parseWebpage`): resources whose first
`presentation` value is not `page` yield `null` (they are skipped as
global elements); a defined raw slug of `"/"` maps to the empty string and
every other defined slug passes through, while an undefined slug is an
error; elements and sub-pages come from the child resources and the
header/width flags from the `presentation` property's children. -/
def webpageGo (fetch : String → Except String (Option DocumentOut)) :
    Nat → OchreResource → Except String (Option Webpage)
  | 0, _ => .error "Maximum call stack size exceeded"
  | fuel + 1, r =>
    (match r.properties with
      | some ps => parsePropertyListE ps "eng"
      | none => pure []) >>= fun webpageProperties =>
    if webpageProperties.isEmpty || presFirstValue webpageProperties != some "page" then
      pure none
    else
      let identification := parseIdentification r.identification
      let slug0 : Option String := if r.slug == some "/" then some "" else r.slug
      match slug0 with
      | none => Except.error ("Slug not found for page “" ++ identification.label ++ "”")
      | some slug =>
      (match r.links with
        | some ls => parseLinksE ls.toList
        | none => pure []) >>= fun links =>
      let imageLink := links.find? (fun l =>
        l.type == some "image" || l.type == some "IIIF")
      (match r.resource with
        | some rs => webElementsGo fetch fuel rs
        | none => pure []) >>= fun elements =>
      (match r.resource with
        | some rs => webPagesGo fetch fuel rs
        | none => pure []) >>= fun webpages =>
      let webpageSubProperties : Option (List Property) :=
        (webpageProperties.find? (fun p => p.label == "presentation")).map
          (fun p => p.properties)
      let displayedInHeader :=
        match webpageSubProperties with
        | some subs =>
          match subs.find? (fun p => p.label == "header") with
          | some hp =>
            match hp.values with
            | v :: _ => v.content == "Yes"
            | [] => true
          | none => true
        | none => true
      let width :=
        match webpageSubProperties with
        | some subs =>
          match subs.find? (fun p => p.label == "width") with
          | some wp =>
            match wp.values with
            | v :: _ => v.content
            | [] => "default"
          | none => "default"
        | none => "default"
      pure (some (.mk identification.label slug
        { displayedInHeader
          width
          backgroundImageUrl := imageLink.map (fun l =>
            "https://ochre.lib.uchicago.edu/ochre?uuid=" ++ l.uuid ++ "&preview")
          cssStyles := []
          tailwindClasses := [] }
        elements webpages))

end

/-- Parses the component payload of a web element
(`parseWebElementProperties`). -/
def parseWebElementPropertiesE (fetch : String → Except String (Option DocumentOut))
    (componentProperty : Property) (elementResource : OchreResource) :
    Except String WebElementComponent :=
  webElemPropsGo fetch (webFuel (resSize elementResource)) componentProperty
    elementResource

/-- Parses one web element (`parseWebElement`). -/
def parseWebElementE (fetch : String → Except String (Option DocumentOut))
    (elementResource : OchreResource) (elementProperties : List Property) :
    Except String WebElement :=
  webElemGo fetch (webFuel (resSize elementResource)) elementResource
    elementProperties

/-- The `"element"` instantiation of `parseWebpageResources`. -/
def parseWebpageElementsE (fetch : String → Except String (Option DocumentOut))
    (rs : List OchreResource) : Except String (List WebElement) :=
  webElementsGo fetch (webFuel (resListSize rs)) rs

/-- The `"page"` instantiation of `parseWebpageResources`. -/
def parseWebpagePagesE (fetch : String → Except String (Option DocumentOut))
    (rs : List OchreResource) : Except String (List Webpage) :=
  webPagesGo fetch (webFuel (resListSize rs)) rs

/-- Parses one webpage (`parseWebpage`). -/
def parseWebpageE (fetch : String → Except String (Option DocumentOut))
    (r : OchreResource) : Except String (Option Webpage) :=
  webpageGo fetch (webFuel (resSize r)) r


/-- Parses a list of webpage resources, dropping the `null` results
(`parseWebpages`). -/
def parseWebpagesE (fetch : String → Except String (Option DocumentOut))
    (rs : List OchreResource) : Except String (List Webpage) :=
  match rs with
  | [] => pure []
  | r :: rest => do
    let w? ← parseWebpageE fetch r
    let rest' ← parseWebpagesE fetch rest
    match w? with
    | some w => pure (w :: rest')
    | none => pure rest'

/-- The website-type enumeration of `websiteSchema`. -/
def websiteTypeEnum : List String :=
  ["traditional", "digital-collection", "plum", "cedar", "elm", "maple",
    "oak", "palm"]

/-- The website-status enumeration of `websiteSchema`. -/
def websiteStatusEnum : List String := ["development", "preview", "production"]

/-- The website-privacy enumeration of `websiteSchema`. -/
def websitePrivacyEnum : List String := ["public", "password", "private"]

/-- Parses website configuration out of the tree's top-level properties
(`parseWebsiteProperties`): requires the `presentation` subtree, a truthy
`webUI` and `status` value, defaults privacy to `public`, validates the
three against their enumerations, and derives the logo URL and the three
visibility flags (header/navbar and footer default on, sidebar off; a
present flag property is on exactly when its first value content is
`"Yes"`). -/
def parseWebsitePropertiesE (properties : List OchreProperty) :
    Except String WebsiteProperties :=
  parsePropertyListE properties "eng" >>= fun mainProperties =>
  let websiteProperties? : Option (List Property) :=
    (mainProperties.find? (fun p => p.label == "presentation")).map
      (fun p => p.properties)
  match websiteProperties? with
  | none => Except.error "Presentation property not found"
  | some websiteProperties =>
    let type? : Option String :=
      ((websiteProperties.find? (fun p => p.label == "webUI")).bind
        (fun p => p.values.head?)).map (fun v => v.content)
    match (if strTruthy type? then type? else none) with
    | none => Except.error "Website type not found"
    | some type =>
      let status? : Option String :=
        ((websiteProperties.find? (fun p => p.label == "status")).bind
          (fun p => p.values.head?)).map (fun v => v.content)
      match (if strTruthy status? then status? else none) with
      | none => Except.error "Website status not found"
      | some status =>
        let privacy0 : Option String :=
          ((websiteProperties.find? (fun p => p.label == "privacy")).bind
            (fun p => p.values.head?)).map (fun v => v.content)
        let privacy :=
          match (if strTruthy privacy0 then privacy0 else none) with
          | some pv => pv
          | none => "public"
        if type ∈ websiteTypeEnum ∧ status ∈ websiteStatusEnum ∧
            privacy ∈ websitePrivacyEnum then
          let logoUuid : Option String :=
            ((websiteProperties.find? (fun p => p.label == "logo")).bind
              (fun p => p.values.head?)).bind (fun v => v.uuid)
          let isHeaderDisplayed :=
            match (websiteProperties.find?
                (fun p => p.label == "navbar-visible")).bind
                (fun p => p.values.head?) with
            | some v => v.content == "Yes"
            | none => true
          let isFooterDisplayed :=
            match (websiteProperties.find?
                (fun p => p.label == "footer-visible")).bind
                (fun p => p.values.head?) with
            | some v => v.content == "Yes"
            | none => true
          let isSidebarDisplayed :=
            match (websiteProperties.find?
                (fun p => p.label == "sidebar-visible")).bind
                (fun p => p.values.head?) with
            | some v => v.content == "Yes"
            | none => false
          pure
            { type, privacy, status, isHeaderDisplayed, isFooterDisplayed,
              isSidebarDisplayed
              logoUrl := logoUuid.map (fun u =>
                "https://ochre.lib.uchicago.edu/ochre?uuid=" ++ u ++ "&load") }
        else
          Except.error "Invalid website properties"

/-- Raw OCHRE concept (`OchreConcept`), carried only as a tree item
payload. -/
structure OchreConcept where
  uuid : String
  publicationDateTime : String
  n : Int
  availability : Option OchreLicense := none
  context : Option OchreContext := none
  identification : OchreIdentification
  deriving Repr

/-- Items of a raw OCHRE tree, keyed by the single present property. -/
inductive OchreTreeItems where
  | resource (items : OneOrMany OchreResource)
  | spatialUnit (items : OneOrMany OchreSpatialUnit)
  | concept (items : OneOrMany OchreConcept)

/-- Raw OCHRE tree (`OchreTree`). -/
structure OchreTree where
  uuid : String
  publicationDateTime : String
  type : String
  n : Int
  availability : OchreLicense
  identification : OchreIdentification
  date : Option String := none
  creators : Option (OneOrMany OchrePerson) := none
  items : OchreTreeItems
  properties : Option (List OchreProperty) := none

/-- Parses an OCHRE website out of a tree (`parseWebsite`): requires
top-level properties and resource items, builds the configuration and the
page list, and returns an always-empty global-element list (the sidebar
collection in the source is commented out). -/
def parseWebsiteE (fetch : String → Except String (Option DocumentOut))
    (websiteTree : OchreTree) (projectName : FakeString)
    (website : Option FakeString) : Except String Website :=
  match websiteTree.properties with
  | none => Except.error "Website properties not found"
  | some props =>
    parseWebsitePropertiesE props >>= fun properties =>
    match websiteTree.items with
    | .resource rs =>
      parseWebpagesE fetch rs.toList >>= fun pages =>
      pure
        { uuid := websiteTree.uuid
          publicationDateTime :=
            if websiteTree.publicationDateTime ≠ "" then
              some (.ofString websiteTree.publicationDateTime)
            else none
          identification := parseIdentification websiteTree.identification
          projectName := parseFakeString projectName
          projectWebsite :=
            if fakeTruthy website then
              some (parseFakeString (website.getD (.str "")))
            else none
          creators :=
            match websiteTree.creators with
            | some cs => parsePersons cs.toList
            | none => []
          license := parseLicense websiteTree.availability
          pages
          globalElements := []
          properties }
    | _ => Except.error "Website pages not found"

/-! Theorems.  Each claim of the specification is settled below; helper
lemmas dissect the `Except` plumbing of the parsers. -/

/-- Dissection of a successful `Except` bind. -/
theorem except_bind_ok {α β : Type} {x : Except String α}
    {f : α → Except String β} {b : β} (h : x >>= f = .ok b) :
    ∃ a, x = .ok a ∧ f a = .ok b := by
  cases x with
  | error e =>
    simp only [Bind.bind, Except.bind] at h
    exact absurd h (by simp)
  | ok a =>
    refine ⟨a, rfl, ?_⟩
    simpa only [Bind.bind, Except.bind] using h

/-- Provenance fields of the nested-resource rewrite. -/
theorem nestifyResource_fields (b : ResourceObj) :
    (nestifyResource b).publicationDateTime = .absent ∧
    (nestifyResource b).license = .absent ∧
    (nestifyResource b).copyright = .absent ∧
    (nestifyResource b).context = .nullv := by
  cases b
  simp [nestifyResource, ResourceObj.publicationDateTime, ResourceObj.license,
    ResourceObj.copyright, ResourceObj.context]

/-- Provenance fields of a successfully parsed nested resource. -/
theorem parseResourceE_nested_fields (r : OchreResource) (res : ResourceObj)
    (h : parseResourceE r true = .ok res) :
    res.publicationDateTime = .absent ∧ res.license = .absent ∧
    res.copyright = .absent ∧ res.context = .nullv := by
  rw [parseResourceE] at h
  cases hb : buildResourceE r with
  | error e => rw [hb] at h; exact absurd h (by simp [Except.map])
  | ok b =>
    rw [hb] at h
    simp only [Except.map, if_true, Except.ok.injEq] at h
    subst h
    exact nestifyResource_fields b

/-- Provenance fields of a successfully parsed nested spatial unit. -/
theorem parseSpatialUnitE_nested_fields (su : OchreSpatialUnit)
    (res : SpatialUnitObj) (h : parseSpatialUnitE su true = .ok res) :
    res.publicationDateTime = .absent ∧ res.license = .absent := by
  rw [parseSpatialUnitE] at h
  obtain ⟨a1, -, h⟩ := except_bind_ok h
  obtain ⟨a2, -, h⟩ := except_bind_ok h
  obtain ⟨a3, -, h⟩ := except_bind_ok h
  simp only [if_true] at h
  obtain ⟨a4, -, h⟩ := except_bind_ok h
  simp only [pure, Except.pure, Except.ok.injEq] at h
  subst h
  exact ⟨rfl, rfl⟩

/-- Claim C1: every raw entity assembled with `isNested = true` carries no
provenance data.  A nested resource's `publicationDateTime`, `license` and
`copyright` keys are deleted and its `context` key is nulled; a nested
spatial unit's `publicationDateTime` and `license` keys are deleted —
regardless of what the raw source supplies.  In particular none of these
fields ever carries a value in the nested form. -/
theorem c1_nested_forms_omit_provenance :
    (∀ r : OchreResource,
      (parseResourceE r true).map (fun res =>
        (res.publicationDateTime, res.license, res.copyright, res.context)) =
      (parseResourceE r true).map (fun _ =>
        ((JsField.absent : JsField JsDate), (JsField.absent : JsField License),
          (JsField.absent : JsField String), (JsField.nullv : JsField Context)))) ∧
    (∀ su : OchreSpatialUnit,
      (parseSpatialUnitE su true).map (fun res =>
        (res.publicationDateTime, res.license)) =
      (parseSpatialUnitE su true).map (fun _ =>
        ((JsField.absent : JsField JsDate), (JsField.absent : JsField License)))) := by
  constructor
  · intro r
    cases hx : parseResourceE r true with
    | error e => rfl
    | ok res =>
      obtain ⟨h1, h2, h3, h4⟩ := parseResourceE_nested_fields r res hx
      simp [Except.map, h1, h2, h3, h4]
  · intro su
    cases hx : parseSpatialUnitE su true with
    | error e => rfl
    | ok res =>
      obtain ⟨h1, h2⟩ := parseSpatialUnitE_nested_fields su res hx
      simp [Except.map, h1, h2]

/-- Image fields of links built from items are never populated: the
`"resource" in link` conjunct tests the item, not the raw link
wrapper. -/
theorem buildLinkFromItem_image (v : String) (li : OchreLinkItem)
    (bibs : Option (List Bibliography)) :
    (buildLinkFromItem v li bibs).image = none := by
  simp [buildLinkFromItem, linkItemHasResourceKey]

/-- Failing input for claim C6: a resource link supplying all four
dimensions. -/
def c6FailingItem : OchreLinkItem :=
  { uuid := "img-1"
    type := some "image"
    rend := some "inline"
    height := some 800
    width := some 600
    heightPreview := some 80
    widthPreview := some 60 }

/-- The link that `parseLink` actually produces for the failing input:
its image block is null. -/
def c6ActualLink : Link :=
  { variant := some "resource"
    content := none
    uuid := "img-1"
    type := some "image"
    identification := none
    image := none
    bibliographies := none
    publicationDateTime := none }

/-- Claim C6 (code bug): the image-geometry block of a resolved link is
never populated — the guard `"resource" in link` in `parseLink` tests the
link item instead of the raw link wrapper, and no item type has a
`resource` key, so even a resource link supplying all four of `height`,
`width`, `heightPreview` and `widthPreview` resolves with a null image
block.  The second conjunct evaluates the parser at such a failing
input. -/
theorem c6_link_image_never_populated :
    (∀ linkRaw : OchreLink,
      (parseLinkE linkRaw).map (fun ls => ls.map (fun l => l.image)) =
      (parseLinkE linkRaw).map (fun ls => ls.map (fun _ => none))) ∧
    parseLinkE (.resource (.one c6FailingItem)) = .ok [c6ActualLink] := by
  constructor
  · intro lr
    cases lr with
    | resource items =>
      simp [parseLinkE, Except.map, pure, Except.pure, buildLinkFromItem_image]
    | concept items =>
      simp [parseLinkE, Except.map, pure, Except.pure, buildLinkFromItem_image]
    | set items =>
      simp [parseLinkE, Except.map, pure, Except.pure, buildLinkFromItem_image]
    | person items =>
      simp [parseLinkE, Except.map, pure, Except.pure, buildLinkFromItem_image]
    | epigraphicUnit items =>
      simp [parseLinkE, Except.map, pure, Except.pure, buildLinkFromItem_image]
    | bibliography items =>
      rw [parseLinkE]
      cases hb : parseBibliographiesE items.toList with
      | error e => simp [Bind.bind, Except.bind, hb, Except.map]
      | ok bibs =>
        simp [Bind.bind, Except.bind, hb, Except.map, pure, Except.pure,
          bibItemHasResourceKey]
  · rfl

/-- Claim C5 counterexample: the `newline` whitespace option appends a
line feed plus the literal `<br />` marker, not two spaces plus a line
break as the claim states. -/
theorem c5_counterexample :
    parseWhitespace "x" "newline" = "x\n<br />" ∧
    "x\n<br />" ≠ "x  \n" ∧
    parseStringItem ⟨.spans (.one ⟨none, some "newline", .str "x"⟩), none, none⟩ =
      "x\n<br />" := by
  refine ⟨rfl, by decide, rfl⟩

/-- Claim C5 (amended): per span, render options apply first and
whitespace options second, each group folding its space-separated tokens
in their literal order; bold wraps in `**`, italic in `*`, underline in
`_` (so `"bold italic"` wraps bold first, italic around that result),
`trailing` appends one space and `leading` prepends one space — but
`newline` appends a line feed plus the literal `<br />` marker. -/
theorem c5_render_whitespace_order_amended :
    (∀ (c : FakeString) (r w : String), r ≠ "" → w ≠ "" →
      parseStringItem ⟨.spans (.one ⟨some r, some w, c⟩), none, none⟩ =
        stripApos (parseWhitespace (parseRenderOptions (parseFakeString c) r) w)) ∧
    (∀ s, parseRenderOptions s "bold italic" =
      stripApos ("*" ++ ("**" ++ s ++ "**") ++ "*")) ∧
    (∀ s, parseRenderOptions s "bold" = stripApos ("**" ++ s ++ "**")) ∧
    (∀ s, parseRenderOptions s "italic" = stripApos ("*" ++ s ++ "*")) ∧
    (∀ s, parseRenderOptions s "underline" = stripApos ("_" ++ s ++ "_")) ∧
    (∀ s, parseWhitespace s "newline" = stripApos (s ++ "\n<br />")) ∧
    (∀ s, parseWhitespace s "trailing" = stripApos (s ++ " ")) ∧
    (∀ s, parseWhitespace s "leading" = stripApos (" " ++ s)) := by
  refine ⟨?_, fun s => rfl, fun s => rfl, fun s => rfl, fun s => rfl,
    fun s => rfl, fun s => rfl, fun s => rfl⟩
  intro c r w hr hw
  simp [parseStringItem, OneOrMany.toList, renderSpan, strTruthy, hr, hw,
    Option.getD]

/-- Claim C5 witness: the amended span law at the render string
`"bold italic"` and whitespace string `"newline"`. -/
theorem c5_witness :
    parseStringItem ⟨.spans (.one ⟨some "bold italic", some "newline",
        .str "x"⟩), none, none⟩ =
      stripApos (parseWhitespace
        (parseRenderOptions (parseFakeString (.str "x")) "bold italic")
        "newline") :=
  c5_render_whitespace_order_amended.1 (.str "x") "bold italic" "newline"
    (by decide) (by decide)

/-- Claim C3 counterexample: on a non-empty language-tagged array with no
item in the requested language, the string resolver falls back to the
first item but the rich-text document renderer does not — its non-null
assertion crashes (modelled as an error), so the renderer errors on a
non-empty array. -/
theorem c3_counterexample :
    parseStringContent ⟨.items [⟨.fake (.str "bonjour"), some "fra", none⟩]⟩
        "eng" = .ok "bonjour" ∧
    ([⟨.fake (.str "bonjour"), some "fra", none⟩] : List OchreStringItem) ≠ [] ∧
    parseDocumentE
        (.many [{ string := .one (.fake (.str "bonjour")), lang := some "fra" }])
        "eng" =
      .error "TypeError: cannot read properties of undefined (reading string)" := by
  refine ⟨rfl, by simp, rfl⟩

/-- Claim C3 (amended): `parseStringContent` selects the item whose
language tag equals the requested code, falls back to the first item when
none matches, and errors only on an empty array; `parseDocument` selects
the matching item (reducing to the single-document case) but, when no item
matches, fails instead of falling back. -/
theorem c3_language_selection_amended :
    (∀ (items : List OchreStringItem) (lang : String) (it : OchreStringItem),
      items.find? (fun i => i.lang == some lang) = some it →
      parseStringContent ⟨.items items⟩ lang = .ok (parseStringItem it)) ∧
    (∀ (items : List OchreStringItem) (lang : String) (i : OchreStringItem)
      (rest : List OchreStringItem),
      items = i :: rest →
      items.find? (fun j => j.lang == some lang) = none →
      parseStringContent ⟨.items items⟩ lang = .ok (parseStringItem i)) ∧
    (∀ lang, parseStringContent ⟨.items []⟩ lang =
      .error ("No string item found for language " ++ lang)) ∧
    (∀ (docs : List OchreStringRichText) (lang : String) (d : OchreStringRichText),
      docs.find? (fun x => x.lang == some lang) = some d →
      parseDocumentE (.many docs) lang = parseDocumentE (.one d) lang) ∧
    (∀ (docs : List OchreStringRichText) (lang : String),
      docs.find? (fun x => x.lang == some lang) = none →
      parseDocumentE (.many docs) lang =
        .error "TypeError: cannot read properties of undefined (reading string)") := by
  refine ⟨?_, ?_, fun lang => rfl, ?_, ?_⟩
  · intro items lang it hfind
    simp [parseStringContent, getStringItemByLanguage, hfind]
  · intro items lang i rest hcons hfind
    subst hcons
    simp [parseStringContent, getStringItemByLanguage, hfind]
  · intro docs lang d hfind
    simp [parseDocumentE, hfind]
  · intro docs lang hfind
    simp [parseDocumentE, hfind]

/-- Concrete document used by the C3 witness. -/
def c3DocEng : OchreStringRichText :=
  { string := .one (.fake (.str "hello")), lang := some "eng" }

/-- Claim C3 witness: the specification's own example — items tagged
`fra` and `eng` select the `eng` item for request `eng`, and fall back to
the first (`fra`) item for the absent request `spa`; a single matching
document reduces to the single-document case. -/
theorem c3_witness :
    parseStringContent ⟨.items [⟨.fake (.str "bonjour"), some "fra", none⟩,
        ⟨.fake (.str "hello"), some "eng", none⟩]⟩ "eng" = .ok
      (parseStringItem ⟨.fake (.str "hello"), some "eng", none⟩) ∧
    parseStringContent ⟨.items [⟨.fake (.str "bonjour"), some "fra", none⟩,
        ⟨.fake (.str "hello"), some "eng", none⟩]⟩ "spa" = .ok
      (parseStringItem ⟨.fake (.str "bonjour"), some "fra", none⟩) ∧
    parseDocumentE (.many [c3DocEng]) "eng" =
      parseDocumentE (.one c3DocEng) "eng" :=
  ⟨c3_language_selection_amended.1 _ "eng" _ rfl,
    c3_language_selection_amended.2.1 _ "spa" _ _ rfl rfl,
    c3_language_selection_amended.2.2.2.1 _ "eng" _ rfl⟩

/-- Classifier for amended claim C4: links whose dispatch branch in
`parseStringDocumentItem` returns (or crashes) without ever inspecting the
links after them.  A resource link is handled when its first target's type
is `image`, `internalDocument` or `externalDocument` (or when its item
array is empty, which crashes); concept, set, person and bibliography
links are always handled; a resource link of any other type and an
`epigraphicUnit` link are skipped by the loop. -/
def firstLinkHandled : OchreLink → Bool
  | .resource items =>
    match items.firstItem with
    | none => true
    | some li =>
      li.type == some "image" || li.type == some "internalDocument" ||
        li.type == some "externalDocument"
  | .concept _ => true
  | .set _ => true
  | .person _ => true
  | .bibliography _ => true
  | .epigraphicUnit _ => false

/-- The link-dispatch loop never inspects the links after a handled
one. -/
theorem renderLinks_handled (itemString : String) (l : OchreLink)
    (rest : List OchreLink) (fns : List Footnote)
    (h : firstLinkHandled l = true) :
    renderLinks itemString (l :: rest) fns = renderLinks itemString [l] fns := by
  cases l with
  | resource items =>
    simp only [firstLinkHandled] at h
    cases hfi : items.firstItem with
    | none => simp only [renderLinks, hfi]
    | some li =>
      rw [hfi] at h
      simp only [Bool.or_eq_true, beq_iff_eq] at h
      rcases h with (htype | htype) | htype <;>
        simp only [renderLinks, hfi, htype]
  | concept items => simp only [renderLinks]
  | set items => simp only [renderLinks]
  | person items => simp only [renderLinks]
  | bibliography items => simp only [renderLinks]
  | epigraphicUnit items => exact Bool.noConfusion h

/-- A resource link of an unhandled type, skipped by the dispatcher. -/
def c4JunkLink : OchreLink := .resource (.one { uuid := "U1", type := some "zzz" })

/-- A published concept link, always handled by the dispatcher. -/
def c4ConceptLink : OchreLink :=
  .concept (.one { uuid := "V1", publicationDateTime := some "2020-01-01T00:00:00Z" })

/-- Claim C4 counterexample: an annotated node whose first link is a
resource of an unhandled type renders from its second link, and removing
that second link changes the rendered string — so the output is not
determined solely by the first link. -/
theorem c4_counterexample :
    parseStringDocumentItemE (.annot "a1" (.str "x")
        [c4JunkLink, c4ConceptLink]) [] =
      .ok ("<ExternalLink href=\"https:\\/\\/ochre.lib.uchicago.edu/ochre?uuid=V1\" type=\"concept\">x</ExternalLink>",
        []) ∧
    parseStringDocumentItemE (.annot "a1" (.str "x") [c4JunkLink]) [] =
      .ok ("x", []) ∧
    ("<ExternalLink href=\"https:\\/\\/ochre.lib.uchicago.edu/ochre?uuid=V1\" type=\"concept\">x</ExternalLink>" : String) ≠
      "x" := by
  refine ⟨rfl, rfl, by decide⟩

/-- Claim C4 (amended): when the first outbound link of an annotated node
is one the dispatcher handles, the rendered output is determined solely by
that link — replacing or removing every link after the first leaves the
result unchanged.  (When the first link is skipped — a resource link of an
unhandled type or an epigraphic-unit link — later links are inspected, as
the counterexample shows.) -/
theorem c4_first_handled_link_amended (a : String) (s : FakeString)
    (l : OchreLink) (rest : List OchreLink) (fns : List Footnote)
    (h : firstLinkHandled l = true) :
    parseStringDocumentItemE (.annot a s (l :: rest)) fns =
      parseStringDocumentItemE (.annot a s [l]) fns := by
  simp only [parseStringDocumentItemE]
  rw [renderLinks_handled _ _ _ _ h]

/-- Claim C4 witness: the amended law applied to a concept first link
followed by a junk link. -/
theorem c4_witness :
    firstLinkHandled c4ConceptLink = true ∧
    parseStringDocumentItemE (.annot "a1" (.str "x")
        [c4ConceptLink, c4JunkLink]) [] =
      parseStringDocumentItemE (.annot "a1" (.str "x") [c4ConceptLink]) [] :=
  ⟨by decide, c4_first_handled_link_amended "a1" (.str "x") _ _ [] (by decide)⟩


/-- A fetcher stub used by the concrete web-layer inputs below: a remote
dereference always fails, and the inputs never trigger one. -/
def noFetch : String → Except String (Option DocumentOut) := fun _ => .error "no fetch"

/-- Raw string-typed property value with the given content. -/
def rawVal (s : String) : OchrePropertyValue :=
  { content := .fake (.str s), type := "string" }

/-- Raw property with the given label, string values and children. -/
def rawProp (label : String) (vals : List String)
    (children : List OchreProperty) : OchreProperty :=
  .mk ⟨.fake (.str label)⟩ (some (.many (vals.map rawVal))) none (some children)

/-- A webpage resource with slug `/about` whose first presentation value
is `page`. -/
def c9PageRes : OchreResource :=
  .mk "p1" none "page" 1 (some "/about") none none none none
    { label := ⟨.fake (.str "About")⟩ } none none none none none none none none
    none none none (some [rawProp "presentation" ["page"] []]) none none

/-- The page that `parseWebpage` builds from `c9PageRes`. -/
def c9Page : Webpage :=
  .mk "About" "/about"
    { displayedInHeader := true
      width := "default"
      backgroundImageUrl := none
      cssStyles := []
      tailwindClasses := [] }
    [] []

/-- **C9.**  Every webpage accepted by `parseWebpage` has a defined raw
slug; the raw slug `"/"` becomes the empty string and every other raw
slug passes through to the built page unchanged. -/
theorem c9_slug_passthrough (fetch : String → Except String (Option DocumentOut))
    (r : OchreResource) (page : Webpage)
    (h : parseWebpageE fetch r = .ok (some page)) :
    r.slug ≠ none ∧
      ∀ s, r.slug = some s → page.slug = (if s == "/" then "" else s) := by
  unfold parseWebpageE at h
  have hf : webFuel (resSize r) = 5 * resSize r + 4 + 1 := rfl
  rw [hf] at h
  simp only [webpageGo] at h
  obtain ⟨wp, hwp, h⟩ := except_bind_ok h
  by_cases hc : (wp.isEmpty || presFirstValue wp != some "page") = true
  · rw [if_pos hc] at h
    exact absurd h (by simp [pure, Except.pure])
  · rw [if_neg hc] at h
    cases hr : r.slug with
    | none =>
      rw [hr] at h
      rw [show ((none : Option String) == some "/") = false from rfl] at h
      simp at h
    | some s =>
      refine ⟨by simp, fun t ht => ?_⟩
      injection ht with hts
      subst hts
      rw [hr] at h
      rw [show (some s == some "/") = (s == "/") from rfl] at h
      by_cases hs : (s == "/") = true
      · rw [if_pos hs] at h
        simp only [] at h
        obtain ⟨links, hl, h⟩ := except_bind_ok h
        obtain ⟨elements, he, h⟩ := except_bind_ok h
        obtain ⟨webpages, hwps, h⟩ := except_bind_ok h
        simp only [pure, Except.pure, Except.ok.injEq, Option.some.injEq] at h
        rw [if_pos hs, ← h]
        rfl
      · rw [if_neg hs] at h
        simp only [] at h
        obtain ⟨links, hl, h⟩ := except_bind_ok h
        obtain ⟨elements, he, h⟩ := except_bind_ok h
        obtain ⟨webpages, hwps, h⟩ := except_bind_ok h
        simp only [pure, Except.pure, Except.ok.injEq, Option.some.injEq] at h
        rw [if_neg hs, ← h]
        rfl

/-- **C9 witness.**  The concrete page resource with slug `/about` parses
successfully and its page keeps the slug unchanged. -/
theorem c9_witness :
    c9PageRes.slug ≠ none ∧
      ∀ s, c9PageRes.slug = some s →
        c9Page.slug = (if s == "/" then "" else s) :=
  c9_slug_passthrough noFetch c9PageRes c9Page (by rfl)


/-- Raw website properties exercising all three visibility flags: navbar
off by `No`, footer given the non-`Yes` content `true`, sidebar on by
`Yes`. -/
def c10Props : List OchreProperty :=
  [rawProp "presentation" ["traditional"]
    [rawProp "webUI" ["plum"] [], rawProp "status" ["development"] [],
     rawProp "navbar-visible" ["No"] [], rawProp "footer-visible" ["true"] [],
     rawProp "sidebar-visible" ["Yes"] []]]

/-- The website configuration parsed from `c10Props`. -/
def c10W : WebsiteProperties :=
  match parseWebsitePropertiesE c10Props with
  | .ok w => w
  | .error _ =>
    { type := "", privacy := "", status := "", isHeaderDisplayed := true,
      isFooterDisplayed := true, isSidebarDisplayed := false, logoUrl := none }

/-- The parsed top-level property list of `c10Props`. -/
def c10Mps : List Property :=
  match parsePropertyListE c10Props "eng" with
  | .ok l => l
  | .error _ => []

/-- The parsed `presentation` property of `c10Props`. -/
def c10Presentation : Property :=
  match c10Mps.find? (fun q => q.label == "presentation") with
  | some p => p
  | none => .mk "" [] none []

/-- The first value of the given flag property under `c10Presentation`. -/
def c10FlagVal (label : String) : PropertyValue :=
  match (c10Presentation.properties.find? (fun q => q.label == label)).bind
      (fun q => q.values.head?) with
  | some v => v
  | none =>
    { content := "", type := "", category := none, uuid := none,
      publicationDateTime := none }

/-- Raw properties of a webpage whose `header` flag carries the non-`Yes`
content `true`. -/
def c10PageProps : List OchreProperty :=
  [rawProp "presentation" ["page"] [rawProp "header" ["true"] []]]

/-- A webpage resource wearing `c10PageProps`. -/
def c10PageRes : OchreResource :=
  .mk "p2" none "page" 1 (some "/flags") none none none none
    { label := ⟨.fake (.str "Flags")⟩ } none none none none none none none none
    none none none (some c10PageProps) none none

/-- The parsed property list of `c10PageProps`. -/
def c10Wp : List Property :=
  match parsePropertyListE c10PageProps "eng" with
  | .ok l => l
  | .error _ => []

/-- The parsed `presentation` property of `c10PageProps`. -/
def c10PresP : Property :=
  match c10Wp.find? (fun q => q.label == "presentation") with
  | some p => p
  | none => .mk "" [] none []

/-- The parsed `header` child of `c10PresP`. -/
def c10HeaderProp : Property :=
  match c10PresP.properties.find? (fun q => q.label == "header") with
  | some p => p
  | none => .mk "" [] none []

/-- First value of `c10HeaderProp`. -/
def c10HeadVal : PropertyValue :=
  match c10HeaderProp.values with
  | v :: _ => v
  | [] =>
    { content := "", type := "", category := none, uuid := none,
      publicationDateTime := none }

/-- Remaining values of `c10HeaderProp`. -/
def c10HeadValRest : List PropertyValue :=
  match c10HeaderProp.values with
  | _ :: vs => vs
  | [] => []

/-- The page parsed from `c10PageRes`. -/
def c10Page : Webpage :=
  match parseWebpageE noFetch c10PageRes with
  | .ok (some p) => p
  | _ =>
    .mk "" ""
      { displayedInHeader := true, width := "", backgroundImageUrl := none,
        cssStyles := [], tailwindClasses := [] }
      [] []

/-- **C10.**  Boolean payloads resolve to the exact strings `Yes` and
`No`, and each website visibility flag (navbar/header, footer, sidebar)
and the webpage header flag, when its property is present with a first
value, is on exactly when that first value content equals `Yes`. -/
theorem c10_yes_no_flags :
    (∀ b : Bool, parseFakeString (.bool b) = (if b then "Yes" else "No")) ∧
    (∀ (props : List OchreProperty) (w : WebsiteProperties)
        (mps : List Property) (p : Property),
      parseWebsitePropertiesE props = .ok w →
      parsePropertyListE props "eng" = .ok mps →
      mps.find? (fun q => q.label == "presentation") = some p →
      (∀ v, (p.properties.find? (fun q => q.label == "navbar-visible")).bind
          (fun q => q.values.head?) = some v →
        w.isHeaderDisplayed = (v.content == "Yes")) ∧
      (∀ v, (p.properties.find? (fun q => q.label == "footer-visible")).bind
          (fun q => q.values.head?) = some v →
        w.isFooterDisplayed = (v.content == "Yes")) ∧
      (∀ v, (p.properties.find? (fun q => q.label == "sidebar-visible")).bind
          (fun q => q.values.head?) = some v →
        w.isSidebarDisplayed = (v.content == "Yes"))) ∧
    (∀ (fetch : String → Except String (Option DocumentOut)) (r : OchreResource)
        (page : Webpage) (ps : List OchreProperty) (wp : List Property)
        (p hp : Property) (v : PropertyValue) (vs : List PropertyValue),
      parseWebpageE fetch r = .ok (some page) →
      r.properties = some ps →
      parsePropertyListE ps "eng" = .ok wp →
      wp.find? (fun q => q.label == "presentation") = some p →
      p.properties.find? (fun q => q.label == "header") = some hp →
      hp.values = v :: vs →
      page.properties.displayedInHeader = (v.content == "Yes")) := by
  refine ⟨fun b => by cases b <;> rfl, ?_, ?_⟩
  · intro props w mps p hw hm hfind
    unfold parseWebsitePropertiesE at hw
    obtain ⟨mps0, hm0, hw⟩ := except_bind_ok hw
    rw [hm] at hm0
    injection hm0 with e
    subst e
    rw [hfind] at hw
    simp only [Option.map_some'] at hw
    split at hw
    · simp at hw
    · split at hw
      · simp at hw
      · split at hw <;> split at hw
        · simp only [pure, Except.pure, Except.ok.injEq] at hw
          refine ⟨fun v hv => ?_, fun v hv => ?_, fun v hv => ?_⟩ <;>
            rw [← hw, hv]
        · simp at hw
        · simp only [pure, Except.pure, Except.ok.injEq] at hw
          refine ⟨fun v hv => ?_, fun v hv => ?_, fun v hv => ?_⟩ <;>
            rw [← hw, hv]
        · simp at hw
  · intro fetch r page ps wp p hp v vs h hps hwpl hfind hhp hvals
    unfold parseWebpageE at h
    have hf : webFuel (resSize r) = 5 * resSize r + 4 + 1 := rfl
    rw [hf] at h
    simp only [webpageGo] at h
    obtain ⟨wp0, hwp0, h⟩ := except_bind_ok h
    simp only [hps] at hwp0
    rw [hwpl] at hwp0
    injection hwp0 with e
    subst e
    by_cases hc : (wp.isEmpty || presFirstValue wp != some "page") = true
    · rw [if_pos hc] at h
      exact absurd h (by simp [pure, Except.pure])
    · rw [if_neg hc] at h
      split at h
      · simp at h
      · obtain ⟨links, hl, h⟩ := except_bind_ok h
        obtain ⟨elements, he, h⟩ := except_bind_ok h
        obtain ⟨webpages, hwps, h⟩ := except_bind_ok h
        simp only [pure, Except.pure, Except.ok.injEq, Option.some.injEq] at h
        rw [← h]
        simp only [Webpage.properties, hfind, Option.map_some', hhp, hvals]

/-- **C10 witness.**  At the concrete inputs, the navbar flag (content
`No`) and the webpage header flag (content `true`) come out false and the
sidebar flag (content `Yes`) true, each equal to the `== Yes` test on its
first value content. -/
theorem c10_witness :
    parseFakeString (.bool true) = (if true then "Yes" else "No") ∧
    c10W.isHeaderDisplayed = ((c10FlagVal "navbar-visible").content == "Yes") ∧
    c10W.isFooterDisplayed = ((c10FlagVal "footer-visible").content == "Yes") ∧
    c10W.isSidebarDisplayed = ((c10FlagVal "sidebar-visible").content == "Yes") ∧
    c10Page.properties.displayedInHeader = (c10HeadVal.content == "Yes") := by
  obtain ⟨h1, h2, h3⟩ := c10_yes_no_flags
  obtain ⟨hn, hf, hs⟩ := h2 c10Props c10W c10Mps c10Presentation rfl rfl rfl
  exact ⟨h1 true, hn (c10FlagVal "navbar-visible") rfl,
    hf (c10FlagVal "footer-visible") rfl, hs (c10FlagVal "sidebar-visible") rfl,
    h3 noFetch c10PageRes c10Page c10PageProps c10Wp c10PresP c10HeaderProp
      c10HeadVal c10HeadValRest rfl rfl rfl rfl rfl rfl⟩


/-- Reduction of a successful `Except` bind. -/
theorem except_ok_bind {α β : Type} (a : α) (f : α → Except String β) :
    (Except.ok a >>= f : Except String β) = f a := rfl

/-- Reduction of a pure `Except` bind. -/
theorem except_pure_bind {α β : Type} (a : α) (f : α → Except String β) :
    (pure a >>= f : Except String β) = f a := rfl

/-- A nonempty string is truthy. -/
theorem strTruthy_some_true {s : String} (h : s ≠ "") :
    strTruthy (some s) = true := by
  simp [strTruthy, h]

/-- An element resource with no links, document, properties or children. -/
def c7Er : OchreResource :=
  .mk "e1" none "internalDocument" 1 none none none none none
    { label := ⟨.fake (.str "Elem")⟩ } none none none none none none none none
    none none none none none none

/-- A parsed `navigate-to` property whose single value holds `s`. -/
def c7Nav (s : String) : Property :=
  .mk "navigate-to"
    [{ content := s
       type := "string"
       category := none
       uuid := none
       publicationDateTime := none }]
    none []

/-- A parsed `component` property resolving to `button`, with the given
children. -/
def c7Cp (children : List Property) : Property :=
  .mk "component"
    [{ content := "button"
       type := "string"
       category := none
       uuid := none
       publicationDateTime := none }]
    none children

/-- **C7 counterexample.**  A `button` component whose `navigate-to`
property is present but holds the empty string: the lookup finds the
value, yet assembly fails with the missing-dependency error, because the
code tests the value for truthiness, treating `""` like an absent
property. -/
theorem c7_counterexample :
    getPropertyValueByLabel (c7Cp [c7Nav ""]).properties "navigate-to" =
      some "" ∧
    parseWebElementPropertiesE noFetch (c7Cp [c7Nav ""]) c7Er =
      .error "Properties “navigate-to” or “link-to” not found for the following component: “button”" :=
  ⟨rfl, rfl⟩

/-- **C7 (amended).**  For a `button` component on a link- and
document-free element: a truthy (present and nonempty) `navigate-to`
first value becomes the href; otherwise a truthy `link-to` first value
becomes the href; when both lookups are falsy — absent or holding the
empty string — assembly fails with the missing-dependency error naming
`button`. -/
theorem c7_button_dependency_amended
    (fetch : String → Except String (Option DocumentOut))
    (cp : Property) (er : OchreResource)
    (v : PropertyValue) (vs : List PropertyValue)
    (hl : er.links = none) (hd : er.document = none)
    (hv : cp.values = v :: vs) (hc : v.content = "button") :
    (∀ s, getPropertyValueByLabel cp.properties "navigate-to" = some s →
      s ≠ "" → parseWebElementPropertiesE fetch cp er = .ok (.button s)) ∧
    (strTruthy (getPropertyValueByLabel cp.properties "navigate-to") = false →
      ∀ s, getPropertyValueByLabel cp.properties "link-to" = some s →
      s ≠ "" → parseWebElementPropertiesE fetch cp er = .ok (.button s)) ∧
    (strTruthy (getPropertyValueByLabel cp.properties "navigate-to") = false →
      strTruthy (getPropertyValueByLabel cp.properties "link-to") = false →
      parseWebElementPropertiesE fetch cp er =
        .error "Properties “navigate-to” or “link-to” not found for the following component: “button”") := by
  refine ⟨fun s hs hne => ?_, fun hnav s hs hne => ?_, fun hnav hlink => ?_⟩
  · unfold parseWebElementPropertiesE
    rw [show webFuel (resSize er) = 5 * resSize er + 4 + 1 from rfl]
    simp only [webElemPropsGo, hv, hc,
      show componentSchemaParse "button" = Except.ok "button" from rfl,
      except_ok_bind, except_pure_bind, hl, hd, List.find?_nil]
    rw [hs, if_pos (strTruthy_some_true hne)]
    rfl
  · unfold parseWebElementPropertiesE
    rw [show webFuel (resSize er) = 5 * resSize er + 4 + 1 from rfl]
    simp only [webElemPropsGo, hv, hc,
      show componentSchemaParse "button" = Except.ok "button" from rfl,
      except_ok_bind, except_pure_bind, hl, hd, List.find?_nil]
    rw [if_neg (by simp [hnav]), hs, if_pos (strTruthy_some_true hne)]
    rfl
  · unfold parseWebElementPropertiesE
    rw [show webFuel (resSize er) = 5 * resSize er + 4 + 1 from rfl]
    simp only [webElemPropsGo, hv, hc,
      show componentSchemaParse "button" = Except.ok "button" from rfl,
      except_ok_bind, except_pure_bind, hl, hd, List.find?_nil]
    rw [if_neg (by simp [hnav]), if_neg (by simp [hlink])]

/-- **C7 witness.**  At the concrete inputs: `navigate-to` holding `/x`
yields a button with href `/x`; with `navigate-to` absent, `link-to`
holding `/y` yields href `/y`; with both absent, assembly fails naming
`button`. -/
theorem c7_witness :
    parseWebElementPropertiesE noFetch (c7Cp [c7Nav "/x"]) c7Er =
      .ok (.button "/x") ∧
    parseWebElementPropertiesE noFetch
      (c7Cp [.mk "link-to"
        [{ content := "/y"
           type := "string"
           category := none
           uuid := none
           publicationDateTime := none }]
        none []]) c7Er = .ok (.button "/y") ∧
    parseWebElementPropertiesE noFetch (c7Cp []) c7Er =
      .error "Properties “navigate-to” or “link-to” not found for the following component: “button”" := by
  refine ⟨?_, ?_, ?_⟩
  · exact (c7_button_dependency_amended noFetch (c7Cp [c7Nav "/x"]) c7Er _ []
      rfl rfl rfl rfl).1 "/x" rfl (by decide)
  · exact ((c7_button_dependency_amended noFetch (c7Cp [.mk "link-to"
      [{ content := "/y"
         type := "string"
         category := none
         uuid := none
         publicationDateTime := none }]
      none []]) c7Er _ [] rfl rfl rfl rfl).2.1) rfl "/y" rfl (by decide)
  · exact ((c7_button_dependency_amended noFetch (c7Cp []) c7Er _ []
      rfl rfl rfl rfl).2.2) rfl rfl


/-- A website child resource whose first `presentation` value is
`global` — neither `page` nor `element`. -/
def c8GlobalRes : OchreResource :=
  .mk "g1" none "page" 1 (some "/sidebar") none none none none
    { label := ⟨.fake (.str "G")⟩ } none none none none none none none none
    none none none (some [rawProp "presentation" ["global"] []]) none none

/-- A website child resource whose first `presentation` value is
`page`. -/
def c8PageRes : OchreResource :=
  .mk "p3" none "page" 1 (some "/") none none none none
    { label := ⟨.fake (.str "Home")⟩ } none none none none none none none none
    none none none (some [rawProp "presentation" ["page"] []]) none none

/-- A website tree carrying `c8GlobalRes` and `c8PageRes` as children and
a valid presentation configuration. -/
def c8Tree : OchreTree :=
  { uuid := "t1"
    publicationDateTime := "2020"
    type := "tree"
    n := 1
    availability := ⟨.str "x"⟩
    identification := { label := ⟨.fake (.str "Site")⟩ }
    items := .resource (.many [c8GlobalRes, c8PageRes])
    properties := some [rawProp "presentation" ["traditional"]
      [rawProp "webUI" ["plum"] [], rawProp "status" ["development"] []]] }

/-- The parsed property list of the global child. -/
def c8Rp : List Property :=
  match parsePropertyListE [rawProp "presentation" ["global"] []] "eng" with
  | .ok l => l
  | .error _ => []

/-- **C8 counterexample.**  The site built from `c8Tree` contains a child
whose first `presentation` value is `global` — neither `page` nor
`element` — yet the built website's global-element list is empty: the
fragment is dropped, not collected. The home page is still the only entry
of the page tree. -/
theorem c8_counterexample :
    findPresentationWith c8Rp "page" = .ok none ∧
    findPresentationWith c8Rp "element" = .ok none ∧
    (parseWebsiteE noFetch c8Tree (.str "Proj") none).map
      (fun site => site.globalElements) = .ok [] ∧
    (parseWebsiteE noFetch c8Tree (.str "Proj") none).map
      (fun site => site.pages.map (fun p => p.title)) = .ok ["Home"] :=
  ⟨rfl, rfl, rfl, rfl⟩

/-- Every successfully built website has an empty global-element list:
the sidebar collection in the source is commented out. -/
theorem parseWebsiteE_ok_globalElements
    (fetch : String → Except String (Option DocumentOut)) (t : OchreTree)
    (pn : FakeString) (w : Option FakeString) (site : Website)
    (h : parseWebsiteE fetch t pn w = .ok site) : site.globalElements = [] := by
  unfold parseWebsiteE at h
  rcases ht : t.properties with _ | props
  · simp only [ht] at h
    exact absurd h (by simp)
  · simp only [ht] at h
    obtain ⟨properties, hw, h⟩ := except_bind_ok h
    rcases hitems : t.items with rs | ss | cs
    · simp only [hitems] at h
      obtain ⟨pages, hp, h⟩ := except_bind_ok h
      simp only [pure, Except.pure, Except.ok.injEq] at h
      rw [← h]
    · simp only [hitems] at h
      exact absurd h (by simp)
    · simp only [hitems] at h
      exact absurd h (by simp)

/-- **C8 (amended).**  A child resource whose first `presentation` value
is neither `page` nor `element` is skipped everywhere: the element and
page walks both drop it, a non-`page` resource parses to a null webpage,
and the built website's global-element list is always empty — the
commented-out sidebar collection is never populated. -/
theorem c8_global_never_collected_amended :
    (∀ (fetch : String → Except String (Option DocumentOut)) (t : OchreTree)
        (pn : FakeString) (w : Option FakeString),
      (parseWebsiteE fetch t pn w).map (fun site => site.globalElements) =
        (parseWebsiteE fetch t pn w).map (fun _ => ([] : List WebElement))) ∧
    (∀ (fetch : String → Except String (Option DocumentOut)) (fuel : Nat)
        (r : OchreResource) (rest : List OchreResource)
        (ps : List OchreProperty) (rp : List Property),
      r.properties = some ps → parsePropertyListE ps "eng" = .ok rp →
      findPresentationWith rp "element" = .ok none →
      webElementsGo fetch (fuel + 1) (r :: rest) = webElementsGo fetch fuel rest) ∧
    (∀ (fetch : String → Except String (Option DocumentOut)) (fuel : Nat)
        (r : OchreResource) (rest : List OchreResource)
        (ps : List OchreProperty) (rp : List Property),
      r.properties = some ps → parsePropertyListE ps "eng" = .ok rp →
      findPresentationWith rp "page" = .ok none →
      webPagesGo fetch (fuel + 1) (r :: rest) = webPagesGo fetch fuel rest) ∧
    (∀ (fetch : String → Except String (Option DocumentOut)) (r : OchreResource)
        (ps : List OchreProperty) (rp : List Property),
      r.properties = some ps → parsePropertyListE ps "eng" = .ok rp →
      (rp.isEmpty || presFirstValue rp != some "page") = true →
      parseWebpageE fetch r = .ok none) := by
  refine ⟨fun fetch t pn w => ?_, fun fetch fuel r rest ps rp hps hrp hfind => ?_,
    fun fetch fuel r rest ps rp hps hrp hfind => ?_,
    fun fetch r ps rp hps hrp hskip => ?_⟩
  · cases hres : parseWebsiteE fetch t pn w with
    | error e => rfl
    | ok site =>
      simp only [Except.map,
        parseWebsiteE_ok_globalElements fetch t pn w site hres]
  · simp only [webElementsGo, hps, hrp, hfind, except_ok_bind]
  · simp only [webPagesGo, hps, hrp, hfind, except_ok_bind]
  · unfold parseWebpageE
    rw [show webFuel (resSize r) = 5 * resSize r + 4 + 1 from rfl]
    simp only [webpageGo, hps, hrp, except_ok_bind]
    rw [if_pos hskip]
    rfl

/-- **C8 witness.**  The skip equations at the concrete global child: the
element and page walks drop it, and it parses to a null webpage. -/
theorem c8_witness :
    webElementsGo noFetch 1 [c8GlobalRes] = webElementsGo noFetch 0 [] ∧
    webPagesGo noFetch 1 [c8GlobalRes] = webPagesGo noFetch 0 [] ∧
    parseWebpageE noFetch c8GlobalRes = .ok none := by
  refine ⟨?_, ?_, ?_⟩
  · exact c8_global_never_collected_amended.2.1 noFetch 0 c8GlobalRes []
      [rawProp "presentation" ["global"] []] c8Rp rfl rfl rfl
  · exact c8_global_never_collected_amended.2.2.1 noFetch 0 c8GlobalRes []
      [rawProp "presentation" ["global"] []] c8Rp rfl rfl rfl
  · exact c8_global_never_collected_amended.2.2.2 noFetch c8GlobalRes
      [rawProp "presentation" ["global"] []] c8Rp rfl rfl (by decide)


/-- The footnote marker emitted by the internal-document footnote branch
of the link dispatcher. -/
def footnoteMarker (uuid label content : String) : String :=
  " <Footnote uuid=\"" ++ uuid ++ "\"" ++
    (if label ≠ "" then " label=\"" ++ label ++ "\"" else "") ++
    condStr (some content) (fun lc => " content=\"" ++ lc ++ "\"") ++ " />"

/-- Boolean prefix test is monotone under extending the larger list. -/
theorem isPrefixOf_append_mono (p r b : List Char)
    (h : p.isPrefixOf r = true) : p.isPrefixOf (r ++ b) = true := by
  induction p generalizing r with
  | nil => simp [List.isPrefixOf]
  | cons a as ih =>
    cases r with
    | nil => simp [List.isPrefixOf] at h
    | cons c cs =>
      simp only [List.isPrefixOf, Bool.and_eq_true] at h ⊢
      exact ⟨h.1, by simpa using ih cs h.2⟩

/-- Every `<` in the list is immediately followed by the word
`Footnote`. -/
def ltOk : List Char → Bool
  | [] => true
  | c :: rest =>
    (c != '<' || "Footnote".data.isPrefixOf rest) && ltOk rest

theorem ltOk_append (a b : List Char) (ha : ltOk a = true)
    (hb : ltOk b = true) : ltOk (a ++ b) = true := by
  induction a with
  | nil => simpa using hb
  | cons c cs ih =>
    simp only [ltOk, Bool.and_eq_true, Bool.or_eq_true] at ha ⊢
    refine ⟨?_, ih ha.2⟩
    rcases ha.1 with h | h
    · exact Or.inl h
    · exact Or.inr (isPrefixOf_append_mono _ _ _ h)

theorem ltOk_of_no_lt (l : List Char) (h : '<' ∉ l) : ltOk l = true := by
  induction l with
  | nil => rfl
  | cons c cs ih =>
    simp only [List.mem_cons, not_or] at h
    simp only [ltOk, Bool.and_eq_true, Bool.or_eq_true]
    exact ⟨Or.inl (by simpa using fun e => h.1 e.symm), ih h.2⟩

/-- No pattern starting `<d…` with `d ≠ F` occurs in an `ltOk` list. -/
theorem ltOk_no_pattern (l : List Char) (h : ltOk l = true) (d : Char)
    (q : List Char) (hd : d ≠ 'F') :
    (l.tails.any fun t => (('<' :: d :: q).isPrefixOf t)) = false := by
  induction l with
  | nil => rfl
  | cons c cs ih =>
    simp only [ltOk, Bool.and_eq_true, Bool.or_eq_true] at h
    rw [List.tails_cons, List.any_cons, ih h.2, Bool.or_false]
    show (('<' == c) && ((d :: q).isPrefixOf cs)) = false
    rcases h.1 with hc | hp
    · have hcf : ('<' == c) = false := by
        cases hcc : ('<' == c)
        · rfl
        · exact absurd (eq_of_beq hcc).symm (bne_iff_ne.mp hc)
      rw [hcf, Bool.false_and]
    · cases cs with
      | nil => exact absurd hp (by decide)
      | cons e es =>
        have he : e = 'F' := by
          simp only [List.isPrefixOf, Bool.and_eq_true] at hp
          exact (eq_of_beq hp.1).symm
        subst he
        have hde : (d == 'F') = false := by
          cases hdd : (d == 'F')
          · rfl
          · exact absurd (eq_of_beq hdd) hd
        rw [show ((d :: q).isPrefixOf ('F' :: es)) =
          ((d == 'F') && q.isPrefixOf es) from rfl, hde, Bool.false_and,
          Bool.and_false]

theorem any_tails_prefix_append (p a b : List Char)
    (h : (a.tails.any fun t => p.isPrefixOf t) = true) :
    ((a ++ b).tails.any fun t => p.isPrefixOf t) = true := by
  induction a with
  | nil =>
    simp only [show ([] : List Char).tails = [[]] from rfl, List.any_cons,
      List.any_nil, Bool.or_false] at h
    cases p with
    | nil =>
      cases b with
      | nil => simp
      | cons x xs => simp [List.isPrefixOf]
    | cons y ys => simp [List.isPrefixOf] at h
  | cons c cs ih =>
    rw [List.tails_cons, List.any_cons] at h
    rcases Bool.or_eq_true_iff.mp h with h1 | h2
    · rw [List.cons_append, List.tails_cons, List.any_cons]
      exact Bool.or_eq_true_iff.mpr (Or.inl (isPrefixOf_append_mono _ _ _ h1))
    · rw [List.cons_append, List.tails_cons, List.any_cons]
      exact Bool.or_eq_true_iff.mpr (Or.inr (ih h2))

/-- A substring of `a` is a substring of `a ++ b`. -/
theorem includesB_append_left (a b sub : String)
    (h : includesB a sub = true) : includesB (a ++ b) sub = true := by
  show ((a ++ b).data.tails.any fun t => sub.data.isPrefixOf t) = true
  rw [String.data_append]
  exact any_tails_prefix_append _ _ _ h

/-- **C2.**  An annotated node whose first outbound link is a resource of
type `internalDocument` with truthy content containing `footnote` (any
letter case) renders to the footnote marker and appends exactly one
footnote — uuid from the link target, label the escaped display text,
empty content; the marker contains `<Footnote`, and, when neither the
target uuid nor the escaped display text nor the escaped link content
contains a `<`, no `<ExternalLink` or `<TooltipSpan` markup. -/
theorem c2_footnote_law (a : String) (s : FakeString) (lr : OchreLinkItem)
    (rest : List OchreLink) (fns : List Footnote)
    (htype : lr.type = some "internalDocument")
    (hcont : fakeTruthy lr.content = true)
    (hfoot : includesB
      (jsToLower (escapeAnnot (parseFakeString (lr.content.getD (.str "")))))
      "footnote" = true) :
    parseStringDocumentItemE (.annot a s (.resource (.one lr) :: rest)) fns =
      .ok (footnoteMarker lr.uuid (escapeAnnot (parseFakeString s))
          (escapeAnnot (parseFakeString (lr.content.getD (.str "")))),
        fns ++ [⟨lr.uuid, escapeAnnot (parseFakeString s), ""⟩]) ∧
    includesB (footnoteMarker lr.uuid (escapeAnnot (parseFakeString s))
      (escapeAnnot (parseFakeString (lr.content.getD (.str "")))))
      "<Footnote" = true ∧
    ('<' ∉ lr.uuid.data → '<' ∉ (escapeAnnot (parseFakeString s)).data →
      '<' ∉ (escapeAnnot (parseFakeString (lr.content.getD (.str "")))).data →
      includesB (footnoteMarker lr.uuid (escapeAnnot (parseFakeString s))
        (escapeAnnot (parseFakeString (lr.content.getD (.str "")))))
        "<ExternalLink" = false ∧
      includesB (footnoteMarker lr.uuid (escapeAnnot (parseFakeString s))
        (escapeAnnot (parseFakeString (lr.content.getD (.str "")))))
        "<TooltipSpan" = false) := by
  refine ⟨?_, ?_, ?_⟩
  · simp only [parseStringDocumentItemE, renderLinks, OneOrMany.firstItem,
      hcont, htype, hfoot, if_true, footnoteMarker]
  · simp only [footnoteMarker]
    exact includesB_append_left _ _ _ (includesB_append_left _ _ _
      (includesB_append_left _ _ _ (includesB_append_left _ _ _
        (includesB_append_left _ _ _ (by decide)))))
  · intro hU hL hC
    have hm : ltOk (footnoteMarker lr.uuid (escapeAnnot (parseFakeString s))
        (escapeAnnot (parseFakeString (lr.content.getD (.str ""))))).data =
        true := by
      simp only [footnoteMarker, String.data_append]
      refine ltOk_append _ _ (ltOk_append _ _ (ltOk_append _ _
        (ltOk_append _ _ (ltOk_append _ _ (by decide)
          (ltOk_of_no_lt _ hU)) (by decide)) ?_) ?_) (by decide)
      · split
        · rw [String.data_append, String.data_append]
          exact ltOk_append _ _ (ltOk_append _ _ (by decide)
            (ltOk_of_no_lt _ hL)) (by decide)
        · decide
      · simp only [condStr]
        split
        · rw [String.data_append, String.data_append]
          exact ltOk_append _ _ (ltOk_append _ _ (by decide)
            (ltOk_of_no_lt _ hC)) (by decide)
        · decide
    constructor
    · show ((footnoteMarker _ _ _).data.tails.any
        fun t => "<ExternalLink".data.isPrefixOf t) = false
      rw [show "<ExternalLink".data = '<' :: 'E' :: "xternalLink".data from rfl]
      exact ltOk_no_pattern _ hm 'E' _ (by decide)
    · show ((footnoteMarker _ _ _).data.tails.any
        fun t => "<TooltipSpan".data.isPrefixOf t) = false
      rw [show "<TooltipSpan".data = '<' :: 'T' :: "ooltipSpan".data from rfl]
      exact ltOk_no_pattern _ hm 'T' _ (by decide)

/-- The concrete internal-document footnote link target. -/
def c2Lr : OchreLinkItem :=
  { uuid := "fn-1", type := some "internalDocument",
    content := some (.str "My Footnote text") }

/-- **C2 witness.**  The concrete annotated node renders to the footnote
marker, appends exactly the one matching footnote, and its output carries
`<Footnote` and no link markup. -/
theorem c2_witness :
    parseStringDocumentItemE (.annot "a1" (.str "See note")
        [.resource (.one c2Lr)]) [] =
      .ok (footnoteMarker "fn-1" "See note" "My Footnote text",
        [{ uuid := "fn-1", label := "See note", content := "" }]) ∧
    includesB (footnoteMarker "fn-1" "See note" "My Footnote text")
      "<Footnote" = true ∧
    includesB (footnoteMarker "fn-1" "See note" "My Footnote text")
      "<ExternalLink" = false ∧
    includesB (footnoteMarker "fn-1" "See note" "My Footnote text")
      "<TooltipSpan" = false := by
  obtain ⟨h1, h2, h3⟩ := c2_footnote_law "a1" (.str "See note") c2Lr [] []
    rfl rfl (by decide)
  obtain ⟨h4, h5⟩ := h3 (by decide) (by decide) (by decide)
  exact ⟨h1, h2, h4, h5⟩

end Ochre
